import Mathlib

/-!
Verification development for the StoneNet repository: a shallow embedding of
the SSTP server (src/net/sstp/server.rs) and the Kademlia node core
(src/net/node.rs), with theorems about contact-option selection, contact
strategies, session-id allocation, the hello handshake, crypted-packet
relaying, the FIND_NODE and FIND_VALUE iterative lookups, and
connection-issue handling.

Machine integers are modelled as Nat (16-bit wrap-around is written out as
mod 65536 where the source wraps); byte buffers are lists of Nat; fallible
operations return Option or Except.
-/

namespace StoneNet

/-- NAT-reachability category of a transport entry (enum Openness; the
definition itself lives outside src/, its three variants are taken from the
spec and from the match arms in src/net/node.rs). -/
inductive Openness
  | bidirectional
  | punchable
  | unidirectional
deriving DecidableEq

/-- One advertised transport of a contact: a port and an openness. -/
structure TransportEntry where
  port : Nat
  openness : Openness
deriving DecidableEq

/-- Optional UDP and TCP transport entries of one IP-family entry. -/
structure TransportAvailability where
  udp : Option TransportEntry
  tcp : Option TransportEntry
deriving DecidableEq

/-- One IP-family entry of a ContactInfo: an IP address (modelled as Nat)
plus the transport availability. -/
structure ContactInfoEntry where
  addr : Nat
  availability : TransportAvailability
deriving DecidableEq

/-- A node's advertised reachability: optional IPv4 and IPv6 entries. -/
structure ContactInfo where
  ipv4 : Option ContactInfoEntry
  ipv6 : Option ContactInfoEntry
deriving DecidableEq

/-- A socket address: IP family, IP (as Nat) and port. -/
inductive SocketAddr
  | v4 (ip : Nat) (port : Nat)
  | v6 (ip : Nat) (port : Nat)
deriving DecidableEq

/-- A concrete dialing choice: resolved address plus transport flag
(struct ContactOption). -/
structure ContactOption where
  target : SocketAddr
  use_tcp : Bool
deriving DecidableEq

/-- Which local link servers exist for one IP family (struct
SstpSocketServers, with the two Option fields reduced to presence flags). -/
structure SstpSocketServers where
  udp : Bool
  tcp : Bool
deriving DecidableEq

/-- The local socket collection: optional IPv4 and IPv6 server sets
(struct SocketCollection in src/net/sstp/server.rs). -/
structure SocketCollection where
  ipv4 : Option SstpSocketServers
  ipv6 : Option SstpSocketServers
deriving DecidableEq

/-- First-some choice on two options, modelling sequential fall-through of
the nested match statements in the source. -/
def orElseO {α : Type} (a b : Option α) : Option α :=
  match a with
  | some x => some x
  | none => b

/-- The IPv6-UDP arm of SocketCollection::pick_contact_option_at_openness
(src/net/sstp/server.rs lines 1848-1872): requires a local IPv6 UDP server,
a remote IPv6 entry with a UDP transport entry, and that entry advertising
exactly the requested openness. -/
def pick_v6_udp (sockets : SocketCollection) (target : ContactInfo)
    (openness : Openness) : Option ContactOption :=
  match sockets.ipv6 with
  | none => none
  | some socket_servers =>
    match target.ipv6 with
    | none => none
    | some contact_option =>
      if socket_servers.udp then
        match contact_option.availability.udp with
        | none => none
        | some transport_option =>
          if transport_option.openness = openness then
            some { target := SocketAddr.v6 contact_option.addr transport_option.port,
                   use_tcp := false }
          else none
      else none

/-- The IPv6-TCP arm of pick_contact_option_at_openness (lines 1873-1892). -/
def pick_v6_tcp (sockets : SocketCollection) (target : ContactInfo)
    (openness : Openness) : Option ContactOption :=
  match sockets.ipv6 with
  | none => none
  | some socket_servers =>
    match target.ipv6 with
    | none => none
    | some contact_option =>
      if socket_servers.tcp then
        match contact_option.availability.tcp with
        | none => none
        | some transport_option =>
          if transport_option.openness = openness then
            some { target := SocketAddr.v6 contact_option.addr transport_option.port,
                   use_tcp := true }
          else none
      else none

/-- The IPv4-UDP arm of pick_contact_option_at_openness (lines 1896-1918). -/
def pick_v4_udp (sockets : SocketCollection) (target : ContactInfo)
    (openness : Openness) : Option ContactOption :=
  match sockets.ipv4 with
  | none => none
  | some socket_servers =>
    match target.ipv4 with
    | none => none
    | some contact_option =>
      if socket_servers.udp then
        match contact_option.availability.udp with
        | none => none
        | some transport_option =>
          if transport_option.openness = openness then
            some { target := SocketAddr.v4 contact_option.addr transport_option.port,
                   use_tcp := false }
          else none
      else none

/-- The IPv4-TCP arm of pick_contact_option_at_openness (lines 1919-1936). -/
def pick_v4_tcp (sockets : SocketCollection) (target : ContactInfo)
    (openness : Openness) : Option ContactOption :=
  match sockets.ipv4 with
  | none => none
  | some socket_servers =>
    match target.ipv4 with
    | none => none
    | some contact_option =>
      if socket_servers.tcp then
        match contact_option.availability.tcp with
        | none => none
        | some transport_option =>
          if transport_option.openness = openness then
            some { target := SocketAddr.v4 contact_option.addr transport_option.port,
                   use_tcp := true }
          else none
      else none

/-- SocketCollection::pick_contact_option_at_openness (src/net/sstp/server.rs
lines 1845-1941): the four arms fall through in source order, IPv6 before
IPv4 and UDP before TCP within each family. -/
def pick_contact_option_at_openness (sockets : SocketCollection)
    (target : ContactInfo) (openness : Openness) : Option ContactOption :=
  orElseO (pick_v6_udp sockets target openness)
    (orElseO (pick_v6_tcp sockets target openness)
      (orElseO (pick_v4_udp sockets target openness)
        (pick_v4_tcp sockets target openness)))

/-- SocketCollection::pick_contact_option (src/net/sstp/server.rs lines
2126-2141): tries openness classes Bidirectional, Punchable, Unidirectional
in that order and pairs the chosen option with the openness it was found
at. -/
def pick_contact_option (sockets : SocketCollection) (target : ContactInfo) :
    Option (ContactOption × Openness) :=
  match pick_contact_option_at_openness sockets target Openness.bidirectional with
  | some option => some (option, Openness.bidirectional)
  | none =>
    match pick_contact_option_at_openness sockets target Openness.punchable with
    | some option => some (option, Openness.punchable)
    | none =>
      match pick_contact_option_at_openness sockets target Openness.unidirectional with
      | some option => some (option, Openness.unidirectional)
      | none => none

/-- IP family tag used by the specification-side preference order. -/
inductive IpFamily
  | v6
  | v4
deriving DecidableEq

/-- Transport protocol tag used by the specification-side preference order. -/
inductive Proto
  | udp
  | tcp
deriving DecidableEq

/-- The candidate at one (family, protocol) slot together with the remote
entry's advertised openness there, if both the local server and the remote
transport entry exist. -/
def slot_option (sockets : SocketCollection) (target : ContactInfo)
    (fam : IpFamily) (proto : Proto) : Option (ContactOption × Openness) :=
  match fam, proto with
  | IpFamily.v6, Proto.udp =>
    match sockets.ipv6, target.ipv6 with
    | some ss, some e =>
      if ss.udp then
        match e.availability.udp with
        | some t => some ({ target := SocketAddr.v6 e.addr t.port, use_tcp := false }, t.openness)
        | none => none
      else none
    | _, _ => none
  | IpFamily.v6, Proto.tcp =>
    match sockets.ipv6, target.ipv6 with
    | some ss, some e =>
      if ss.tcp then
        match e.availability.tcp with
        | some t => some ({ target := SocketAddr.v6 e.addr t.port, use_tcp := true }, t.openness)
        | none => none
      else none
    | _, _ => none
  | IpFamily.v4, Proto.udp =>
    match sockets.ipv4, target.ipv4 with
    | some ss, some e =>
      if ss.udp then
        match e.availability.udp with
        | some t => some ({ target := SocketAddr.v4 e.addr t.port, use_tcp := false }, t.openness)
        | none => none
      else none
    | _, _ => none
  | IpFamily.v4, Proto.tcp =>
    match sockets.ipv4, target.ipv4 with
    | some ss, some e =>
      if ss.tcp then
        match e.availability.tcp with
        | some t => some ({ target := SocketAddr.v4 e.addr t.port, use_tcp := true }, t.openness)
        | none => none
      else none
    | _, _ => none

/-- The fixed preference order claimed for pick_contact_option: openness
classes Bidirectional, Punchable, Unidirectional; inside one class IPv6
before IPv4 and UDP before TCP. -/
def preference_order : List (Openness × IpFamily × Proto) :=
  [ (Openness.bidirectional, IpFamily.v6, Proto.udp),
    (Openness.bidirectional, IpFamily.v6, Proto.tcp),
    (Openness.bidirectional, IpFamily.v4, Proto.udp),
    (Openness.bidirectional, IpFamily.v4, Proto.tcp),
    (Openness.punchable, IpFamily.v6, Proto.udp),
    (Openness.punchable, IpFamily.v6, Proto.tcp),
    (Openness.punchable, IpFamily.v4, Proto.udp),
    (Openness.punchable, IpFamily.v4, Proto.tcp),
    (Openness.unidirectional, IpFamily.v6, Proto.udp),
    (Openness.unidirectional, IpFamily.v6, Proto.tcp),
    (Openness.unidirectional, IpFamily.v4, Proto.udp),
    (Openness.unidirectional, IpFamily.v4, Proto.tcp) ]

/-- The slot candidate kept only when its advertised openness equals the
openness class being tried, paired with that openness. -/
def slot_pair (sockets : SocketCollection) (target : ContactInfo)
    (fam : IpFamily) (proto : Proto) (openness : Openness) :
    Option (ContactOption × Openness) :=
  match slot_option sockets target fam proto with
  | some (co, adv) => if adv = openness then some (co, adv) else none
  | none => none

/-- Specification-side selection: the first slot in preference_order whose
advertised openness equals the openness class being tried. This definition
follows the words of the claim; the refinement theorem compares it with
pick_contact_option, which is translated from the source. -/
def pick_contact_option_spec (sockets : SocketCollection) (target : ContactInfo) :
    Option (ContactOption × Openness) :=
  (preference_order.filterMap (fun triple =>
    slot_pair sockets target triple.2.1 triple.2.2 triple.1)).head?

/-- The slot candidate without the openness pairing, used to relate the
source's per-arm pick functions to the slots. -/
def slot_filtered (sockets : SocketCollection) (target : ContactInfo)
    (fam : IpFamily) (proto : Proto) (openness : Openness) : Option ContactOption :=
  match slot_option sockets target fam proto with
  | some (co, adv) => if adv = openness then some co else none
  | none => none

/-- Modelled from the spec: ContactInfo::openness_at_option is not under
src/ (only its caller in src/net/node.rs is). Per the spec a ContactInfo
holds, per IP family, optional UDP and TCP transport entries each carrying
an openness; the openness at a ContactOption is the one advertised by the
entry selected by the option's address family and its use_tcp flag. -/
def openness_at_option (ci : ContactInfo) (option : ContactOption) : Option Openness :=
  let entry :=
    match option.target with
    | SocketAddr.v4 _ _ => ci.ipv4
    | SocketAddr.v6 _ _ => ci.ipv6
  match entry with
  | none => none
  | some e =>
    match (if option.use_tcp then e.availability.tcp else e.availability.udp) with
    | none => none
    | some t => some t.openness

/-- How to reach a peer (enum ContactStrategyMethod, src/net/node.rs). -/
inductive ContactStrategyMethod
  | direct
  | holePunch
  | relay
deriving DecidableEq

/-- A chosen contact option together with the method for it (struct
ContactStrategy, src/net/node.rs). -/
structure ContactStrategy where
  contact : ContactOption
  method : ContactStrategyMethod
deriving DecidableEq

/-- ContactStrategy::new (src/net/node.rs lines 102-113): maps the remote
openness to a method unconditionally. -/
def ContactStrategy.new (contact : ContactOption) (openness : Openness) :
    Option ContactStrategy :=
  some { contact := contact,
         method :=
           match openness with
           | Openness.bidirectional => ContactStrategyMethod.direct
           | Openness.punchable => ContactStrategyMethod.holePunch
           | Openness.unidirectional => ContactStrategyMethod.relay }

/-- Node::pick_contact_strategy (src/net/node.rs lines 945-968). The local
node's socket collection and own contact info are explicit parameters; in
the source they are reached through self. In the Unidirectional arm the
source keeps a dormant debug check and then chooses HolePunch whenever the
own openness at the option is not Unidirectional, Relay otherwise. -/
def pick_contact_strategy (sockets : SocketCollection) (own_contact_info : ContactInfo)
    (target : ContactInfo) : Option ContactStrategy :=
  match pick_contact_option sockets target with
  | none => none
  | some (option, openness) =>
    match openness with
    | Openness.bidirectional =>
      some { method := ContactStrategyMethod.direct, contact := option }
    | Openness.punchable =>
      some { method := ContactStrategyMethod.holePunch, contact := option }
    | Openness.unidirectional =>
      match openness_at_option own_contact_info option with
      | none => none
      | some own_openness =>
        some { method :=
                 if own_openness ≠ Openness.unidirectional then
                   ContactStrategyMethod.holePunch
                 else
                   ContactStrategyMethod.relay,
               contact := option }

/-- The sstp error taxonomy (enum Error; the enum itself lives outside src/,
its variants are those named by the spec in section 7 and used throughout
src/net/node.rs and src/net/sstp/server.rs). -/
inductive Error
  | timeout
  | connectionClosed
  | invalidSignature
  | invalidNodeId
  | invalidMessageType
  | invalidSessionId (id : Nat)
  | malformedMessage
  | outOfSessions
  | noConnectionOptions
  | sessionNotForRelaying (id : Nat)
  | ioError
deriving DecidableEq

/-- Modelled from the spec: Error::forgivable is not under src/ (only its
caller Node::handle_connection_issue is). Per the section 7 taxonomy the
protocol violations InvalidSignature, InvalidNodeId, InvalidMessageType,
InvalidSessionId and MalformedMessage are non-forgivable; the remaining
errors are forgivable. -/
def Error.forgivable : Error → Bool
  | Error.invalidSignature => false
  | Error.invalidNodeId => false
  | Error.invalidMessageType => false
  | Error.invalidSessionId _ => false
  | Error.malformedMessage => false
  | _ => true

/-- The bucket-quality side effect performed by handle_connection_issue. -/
inductive BucketAction
  | markProblematic
  | reject
  | logOnly
  | markHelpful
deriving DecidableEq

/-- Node::handle_connection_issue (src/net/node.rs lines 804-829): on a
Timeout, mark the peer problematic; on any other non-forgivable error,
reject it from its bucket; on any other forgivable error only log; on
success mark the peer helpful. Returns the unwrapped value on success and
none on every error. -/
def handle_connection_issue {T : Type} (result : Except Error T) :
    Option T × BucketAction :=
  match result with
  | Except.error e =>
    match e with
    | Error.timeout => (none, BucketAction.markProblematic)
    | _ =>
      if !e.forgivable then (none, BucketAction.reject)
      else (none, BucketAction.logOnly)
  | Except.ok response => (some response, BucketAction.markHelpful)

/-- Responder-side framing for a FIND_VALUE response when fingers are not
forced (src/net/node.rs lines 1088-1103): one presence byte, then either
the raw value bytes or the serialized FindNodeResponse, whose byte encoding
is abstracted as the list fnr_bytes. -/
def find_value_response_no_fingers (value_result : Option (List Nat))
    (fnr_bytes : List Nat) : List Nat :=
  match value_result with
  | some value => 1 :: value
  | none => 0 :: fnr_bytes

/-- Outcome of requester-side parsing of a FIND_VALUE response without
expected fingers. A connectionIssue outcome is routed through
handle_connection_issue by the source and surfaces as none there;
indexOutOfBounds marks the out-of-range access the source performs on an
empty buffer. -/
inductive FvParseOutcome
  | ok (value : Option (List Nat))
  | connectionIssue (e : Error)
  | indexOutOfBounds
deriving DecidableEq

/-- Node::process_find_value_response, expect_fingers = false path
(src/net/node.rs lines 1013-1023): first byte 1 means the rest is the
value, 0 means no value, anything else is a MalformedMessage connection
issue. -/
def process_find_value_response_nf (response : List Nat) : FvParseOutcome :=
  match response with
  | [] => FvParseOutcome.indexOutOfBounds
  | b :: rest =>
    if b = 1 then FvParseOutcome.ok (some rest)
    else if b = 0 then FvParseOutcome.ok none
    else FvParseOutcome.connectionIssue Error.malformedMessage

/-- Session-id probing loop of Sessions::next_id (src/net/sstp/server.rs
lines 1813-1828), with the map abstracted to its contains-key test. The
fuel argument mirrors the loop counter i: the source gives up after 65535
occupied probes; the returned pair is the found id (or none) and the final
value of the next_id cursor field. -/
def next_id_core (occupied : Nat → Bool) : Nat → Nat → Option Nat × Nat
  | cur, 0 => (none, cur)
  | cur, fuel + 1 =>
    if occupied cur then next_id_core occupied ((cur + 1) % 65536) fuel
    else (some cur, (cur + 1) % 65536)

/-- Per-session direct-transport state (struct SessionTransportDataDirect).
Channel handles are reduced to what the embedded operations observe: whether
a hello channel is still present, and whether the receiving end of the
packet queue has been closed (which is what makes packet_processor.send
fail). -/
structure SessionTransportDataDirect where
  dest_session_id : Option Nat
  encrypt_session_id : Option Nat
  has_hello_channel : Bool
  relay_node_id : Option Nat
  has_handle : Bool
  queue_closed : Bool
deriving DecidableEq

/-- Per-session relay state (struct SessionTransportDataRelay). The two
link senders are reduced to flags telling whether a send on them succeeds. -/
structure SessionTransportDataRelay where
  source_session_id : Nat
  source_addr : SocketAddr
  source_send_ok : Bool
  target_session_id : Nat
  target_addr : SocketAddr
  target_send_ok : Bool
deriving DecidableEq

/-- enum SessionTransportData (src/net/sstp/server.rs lines 171-175). -/
inductive SessionTransportData
  | empty
  | direct (d : SessionTransportDataDirect)
  | relay (r : SessionTransportDataRelay)
deriving DecidableEq

/-- struct SessionData, reduced to the fields the embedded operations
read (the last-activity timestamp and keep-alive timeout are real-time
state and are not modelled). -/
structure SessionData where
  their_node_id : Option Nat
  transport_data : SessionTransportData
deriving DecidableEq

/-- Lookup in an association list keyed by Nat, modelling HashMap::get. -/
def assocFind {α : Type} : List (Nat × α) → Nat → Option α
  | [], _ => none
  | (k2, v) :: rest, k => if k2 = k then some v else assocFind rest k

/-- Key-presence test, modelling HashMap::contains_key. -/
def containsKey {α : Type} (l : List (Nat × α)) (k : Nat) : Bool :=
  (assocFind l k).isSome

/-- Removal of a key, modelling HashMap::remove on a map whose keys are
unique. -/
def assocErase {α : Type} (l : List (Nat × α)) (k : Nat) : List (Nat × α) :=
  l.filter (fun p => decide (p.1 ≠ k))

/-- struct Sessions (src/net/sstp/server.rs lines 196-199): the session map
and the allocation cursor. -/
structure Sessions where
  map : List (Nat × SessionData)
  next_id : Nat

/-- Sessions::next_id (src/net/sstp/server.rs lines 1813-1828) over the
session structure: probes from the cursor and returns the allocated id (or
none) together with the updated structure. -/
def Sessions.nextId (s : Sessions) : Option Nat × Sessions :=
  let r := next_id_core (containsKey s.map) s.next_id 65535
  (r.1, { s with next_id := r.2 })

/-- The session-allocation step of Server::connect_with_timeout
(src/net/sstp/server.rs lines 441-455): a none from the id allocator is
turned into an OutOfSessions error that aborts the connect. -/
def connect_allocate_session (s : Sessions) (data : SessionData) :
    Except Error (Nat × Sessions) :=
  match Sessions.nextId s with
  | (none, _) => Except.error Error.outOfSessions
  | (some id, s2) => Except.ok (id, { s2 with map := (id, data) :: s2.map })

/-- Little-endian encoding of a 16-bit value, modelling u16::to_le_bytes. -/
def le16 (n : Nat) : List Nat :=
  [n % 256, n / 256 % 256]

/-- Little-endian decoding of two bytes, modelling u16::from_le_bytes. -/
def from_le16 (a b : Nat) : Nat :=
  a + 256 * b

/-- struct CryptedPacket. -/
structure CryptedPacket where
  ks_seq : Nat
  seq : Nat
  data : List Nat
deriving DecidableEq

/-- Wire packet type byte of CRYPTED packets (PACKET_TYPE_CRYPTED). -/
def PACKET_TYPE_CRYPTED : Nat := 3

/-- Server::relay_crypted_packet (src/net/sstp/server.rs lines 1434-1443):
re-frames the tail of a crypted packet under a new session id, touching
nothing after the id field. -/
def relay_crypted_packet (new_session_id : Nat) (buffer : List Nat) : List Nat :=
  PACKET_TYPE_CRYPTED :: (le16 new_session_id ++ buffer)

/-- Observable effect of Server::process_crypted_packet on the outside
world: delivery into the session packet queue, an attempted forward on one
of the two relay link senders (with the packet bytes and whether the link
send succeeded), or one of the silent drop cases. -/
inductive CryptedAction
  | deliveredToQueue (p : CryptedPacket)
  | queueClosedDrop
  | forwardedToTarget (packet : List Nat) (send_ok : Bool)
  | forwardedToSource (packet : List Nat) (send_ok : Bool)
  | droppedUnknownSession
  | droppedUnknownSender
  | droppedEmptyTransport
deriving DecidableEq

/-- Server::process_crypted_packet (src/net/sstp/server.rs lines 788-844):
decodes the session id from the first two bytes, then either feeds the
packet to the direct session queue, bridges it between the two legs of a
relay session rewriting only the session id, or drops it; a session whose
queue or relay link is closed is removed from the map in the same call. -/
def process_crypted_packet (sessions : List (Nat × SessionData))
    (sender : SocketAddr) (buffer : List Nat) :
    List (Nat × SessionData) × CryptedAction :=
  let session_id := from_le16 (buffer.getD 0 0) (buffer.getD 1 0)
  let packet : CryptedPacket :=
    { ks_seq := from_le16 (buffer.getD 2 0) (buffer.getD 3 0),
      seq := from_le16 (buffer.getD 4 0) (buffer.getD 5 0),
      data := buffer.drop 6 }
  match assocFind sessions session_id with
  | none => (sessions, CryptedAction.droppedUnknownSession)
  | some session =>
    match session.transport_data with
    | SessionTransportData.direct d =>
      if d.queue_closed then
        (assocErase sessions session_id, CryptedAction.queueClosedDrop)
      else
        (sessions, CryptedAction.deliveredToQueue packet)
    | SessionTransportData.relay r =>
      if sender = r.source_addr then
        let p := relay_crypted_packet r.target_session_id (buffer.drop 2)
        ((if r.target_send_ok then sessions else assocErase sessions session_id),
          CryptedAction.forwardedToTarget p r.target_send_ok)
      else if sender = r.target_addr then
        let p := relay_crypted_packet r.source_session_id (buffer.drop 2)
        ((if r.source_send_ok then sessions else assocErase sessions session_id),
          CryptedAction.forwardedToSource p r.source_send_ok)
      else
        (sessions, CryptedAction.droppedUnknownSender)
    | SessionTransportData.empty =>
      (sessions, CryptedAction.droppedEmptyTransport)

/-- The CRYPTED arm of Server::process_packet (src/net/sstp/server.rs lines
1307-1310): process_crypted_packet returns no result, so the dispatcher
always answers Ok for this packet type. -/
def process_packet_crypted (sessions : List (Nat × SessionData))
    (sender : SocketAddr) (buffer : List Nat) :
    Except Error (List (Nat × SessionData) × CryptedAction) :=
  Except.ok (process_crypted_packet sessions sender buffer)

/-- Sessions::find_their_session (src/net/sstp/server.rs lines 1785-1804):
scans the map for a direct session whose remote node id and remote (dest)
session id match. -/
def find_their_session (map : List (Nat × SessionData))
    (their_node_id their_session_id : Nat) : Option (Nat × SessionData) :=
  match map with
  | [] => none
  | (our_session_id, session_data) :: rest =>
    match session_data.transport_data with
    | SessionTransportData.direct d =>
      if session_data.their_node_id = some their_node_id ∧
          d.dest_session_id = some their_session_id then
        some (our_session_id, session_data)
      else
        find_their_session rest their_node_id their_session_id
    | _ => find_their_session rest their_node_id their_session_id

/-- Server::new_incomming_session (src/net/sstp/server.rs lines 646-681):
reuses an existing session for the same (their_node_id, dest_session_id)
pair, reporting is_new = false; otherwise allocates a fresh id and inserts
a new direct session. -/
def new_incomming_session (s : Sessions) (their_node_id dest_session_id
    encrypt_session_id : Nat) : Except Error ((Nat × Bool × SessionData) × Sessions) :=
  match find_their_session s.map their_node_id dest_session_id with
  | some (our_session_id, session_data) =>
    Except.ok ((our_session_id, false, session_data), s)
  | none =>
    let session_data : SessionData :=
      { their_node_id := some their_node_id,
        transport_data := SessionTransportData.direct
          { dest_session_id := some dest_session_id,
            encrypt_session_id := some encrypt_session_id,
            has_hello_channel := false,
            relay_node_id := none,
            has_handle := false,
            queue_closed := false } }
    match Sessions.nextId s with
    | (none, _) => Except.error Error.outOfSessions
    | (some session_id, s2) =>
      Except.ok ((session_id, true, session_data),
        { s2 with map := (session_id, session_data) :: s2.map })

/-- Body of a HELLO_ACK packet (struct HelloAckPacketBody,
src/net/sstp/server.rs lines 110-117), with the X25519 public key modelled
as a Nat. -/
structure HelloAckPacketBody where
  dh_public_key : Nat
  source_session_id : Nat
  server_session_id : Nat
  contact_info : ContactInfo
  link_address : SocketAddr
deriving DecidableEq

/-- Session-table and HELLO_ACK core of Server::_process_hello_packet
(src/net/sstp/server.rs lines 1051-1120): a fresh ephemeral DH keypair is
drawn on every call (its public half is the explicit fresh_dh_public_key
parameter, making the randomness an input), the incoming session is created
or reused, and the HELLO_ACK body is composed from the fresh DH public key,
the initiator session id and the local session id. Whether the session was
new is returned alongside; in the source the only difference for a replay
is that no new transporter is spawned before the ack is sent. -/
def process_hello_core (s : Sessions) (fresh_dh_public_key : Nat)
    (their_node_id dest_session_id encrypt_session_id : Nat)
    (our_contact_info : ContactInfo) (addr : SocketAddr) :
    Except Error ((Nat × Bool × HelloAckPacketBody) × Sessions) :=
  match new_incomming_session s their_node_id dest_session_id encrypt_session_id with
  | Except.error e => Except.error e
  | Except.ok ((our_session_id, is_new, _), s2) =>
    let ack : HelloAckPacketBody :=
      { dh_public_key := fresh_dh_public_key,
        source_session_id := dest_session_id,
        server_session_id := our_session_id,
        contact_info := our_contact_info,
        link_address := addr }
    Except.ok ((our_session_id, is_new, ack), s2)

/-- struct NodeContactInfo: a node id (256-bit id modelled as Nat) with its
contact info. -/
structure NodeContactInfo where
  node_id : Nat
  contact_info : ContactInfo
deriving DecidableEq

/-- struct FindNodeResponse (fingers plus an optionally advertised live
connection and the super-node flag). -/
structure FindNodeResponse where
  is_super_node : Bool
  connection : Option NodeContactInfo
  fingers : List NodeContactInfo
deriving DecidableEq

/-- Modelled from the spec: IdType and the distance function are not under
src/ (src/net/node.rs only calls distance). Per the spec, distance a b is
a XOR b read as a big-endian natural number. -/
def distance (a b : Nat) : Nat := a ^^^ b

/-- A queue entry of the lookup iterators: distance to the target, the
finger, and the strategy chosen for it. -/
abbrev Candidate := Nat × NodeContactInfo × ContactStrategy

/-- Stable insertion used by Node::sort_fingers: a finger is placed after
all fingers at smaller or equal distance, matching the stable sort_by of
the source. -/
def sorted_insert_by_dist (x : Nat × NodeContactInfo) :
    List (Nat × NodeContactInfo) → List (Nat × NodeContactInfo)
  | [] => [x]
  | y :: rest =>
    if y.1 ≤ x.1 then y :: sorted_insert_by_dist x rest
    else x :: y :: rest

/-- Node::sort_fingers (src/net/node.rs lines 1157-1171): pairs each finger
with its distance to the target id and sorts ascending by distance, stably. -/
def sort_fingers (id : Nat) (fingers : List NodeContactInfo) :
    List (Nat × NodeContactInfo) :=
  fingers.foldl (fun acc f => sorted_insert_by_dist (distance id f.node_id, f) acc) []

/-- Node::insert_candidate (src/net/node.rs lines 833-846): inserts a new
finger before the first queued candidate at strictly greater distance,
keeping earlier candidates first on ties. -/
def insert_candidate (id : Nat) (candidates : List Candidate)
    (finger : NodeContactInfo × ContactStrategy) : List Candidate :=
  let d := distance id finger.1.node_id
  let rec go : List Candidate → List Candidate
    | [] => [(d, finger.1, finger.2)]
    | c :: rest =>
      if d < c.1 then (d, finger.1, finger.2) :: c :: rest
      else c :: go rest
  go candidates

/-- Node::append_candidates (src/net/node.rs lines 178-185). -/
def append_candidates (id : Nat) (candidates : List Candidate)
    (fingers : List (NodeContactInfo × ContactStrategy)) : List Candidate :=
  fingers.foldl (fun acc finger => insert_candidate id acc finger) candidates

/-- Per-finger step of Node::extract_fingers_from_response (src/net/node.rs
lines 491-523): pick a contact option for the finger, skip fingers whose
option was already visited, and attach the strategy from
ContactStrategy::new. -/
def extract_one_finger (sockets : SocketCollection)
    (visited : List (Nat × ContactOption)) (f : NodeContactInfo) :
    Option (NodeContactInfo × ContactStrategy) :=
  match pick_contact_option sockets f.contact_info with
  | none => none
  | some (option, openness) =>
    if (visited.find? (fun v => v.2 = option)).isSome then none
    else
      match ContactStrategy.new option openness with
      | none => none
      | some strategy => some (f, strategy)

/-- Node::extract_fingers_from_response (src/net/node.rs lines 491-523):
all response fingers in order, then the advertised connection contact. -/
def extract_fingers_from_response (sockets : SocketCollection)
    (response : FindNodeResponse) (visited : List (Nat × ContactOption)) :
    List (NodeContactInfo × ContactStrategy) :=
  response.fingers.filterMap (extract_one_finger sockets visited) ++
    (match response.connection with
     | none => []
     | some c => (extract_one_finger sockets visited c).toList)

/-- The pop_back trimming loops of the source, which drop candidates from
the back until at most limit remain. -/
def trim_back {α : Type} (limit : Nat) (l : List α) : List α :=
  l.take limit

/-- Outcome of dialing one candidate and exchanging a FIND_NODE request on
the connection; the network is an explicit oracle parameter of the lookup
functions. -/
inductive DialOutcome
  | connectFail
  | exchangeFail
  | response (r : FindNodeResponse)
deriving DecidableEq

/-- Static parameters of a FIND_NODE run: the local socket collection, the
local node id, the target id, the limits, and the network oracle. -/
structure FindNodeParams where
  sockets : SocketCollection
  self_id : Nat
  id : Nat
  result_limit : Nat
  visit_limit : Nat
  bucket_size : Nat
  env : NodeContactInfo → ContactStrategy → DialOutcome

/-- The finger filter Node::find_node_from_fingers applies to the fingers
of a response (src/net/node.rs lines 712-721): drop the local node, keep
only Direct strategies, keep only fingers strictly closer to the target
than the candidate that reported them. -/
def retain_new_fingers (P : FindNodeParams) (candidate_dist : Nat)
    (new_fingers : List (NodeContactInfo × ContactStrategy)) :
    List (NodeContactInfo × ContactStrategy) :=
  new_fingers.filter (fun fs =>
    decide (fs.1.node_id ≠ P.self_id) &&
    decide (fs.2.method = ContactStrategyMethod.direct) &&
    decide (distance P.id fs.1.node_id < candidate_dist))

/-- Main loop of Node::find_node_from_fingers (src/net/node.rs lines
670-745). The candidate under scrutiny stays at the head of the queue (the
source only pops queue entries through the visited check); visited records,
in order, every candidate that is dialed, so its length is the number of
dial attempts. Returns the best-k accumulator and the dial trace. -/
def find_node_go (P : FindNodeParams) (candidates found : List Candidate)
    (visited : List (Nat × ContactOption)) (i : Nat) :
    List Candidate × List (Nat × ContactOption) :=
  match candidates with
  | [] => (found, visited)
  | (candidate_dist, candidate_contact, strategy) :: rest =>
    if P.visit_limit ≤ i then (found, visited)
    else
      if (visited.find? (fun v => v.1 = candidate_contact.node_id)).isSome then
        find_node_go P rest found visited i
      else
        let visited2 := visited ++ [(candidate_contact.node_id, strategy.contact)]
        match P.env candidate_contact strategy with
        | DialOutcome.connectFail => find_node_go P candidates found visited2 (i + 1)
        | DialOutcome.exchangeFail => find_node_go P candidates found visited2 (i + 1)
        | DialOutcome.response response =>
          let new_fingers := retain_new_fingers P candidate_dist
            (extract_fingers_from_response P.sockets response visited2)
          let found2 := trim_back P.result_limit (append_candidates P.id found new_fingers)
          if (new_fingers.find? (fun fs => fs.1.node_id = P.id)).isSome then
            (found2, visited2)
          else
            let candidates2 := trim_back P.bucket_size
              (append_candidates P.id candidates new_fingers)
            find_node_go P candidates2 found2 visited2 (i + 1)
termination_by (P.visit_limit - i, candidates.length)
decreasing_by
  all_goals first
    | (apply Prod.Lex.right; simp)
    | (apply Prod.Lex.left; omega)

/-- Node::find_node_from_fingers (src/net/node.rs lines 652-748): build
the initial queue from the sorted fingers (skipping the local node and
fingers without a strategy), initialize the best-k accumulator as the
truncated queue, and run the loop. The own contact info parameter feeds
pick_contact_strategy. -/
def find_node_from_fingers (P : FindNodeParams) (own_contact_info : ContactInfo)
    (fingers : List NodeContactInfo) : List Candidate × List (Nat × ContactOption) :=
  let candidates := (sort_fingers P.id fingers).filterMap (fun dn =>
    if dn.2.node_id ≠ P.self_id then
      match pick_contact_strategy P.sockets own_contact_info dn.2.contact_info with
      | none => none
      | some strategy => some (dn.1, dn.2, strategy)
    else none)
  let found := trim_back P.result_limit candidates
  find_node_go P candidates found [] 0

/-- Outcome of dialing one candidate and exchanging a FIND_VALUE request:
connect failure, exchange failure, or a parsed response carrying an
optional value and optional fingers. -/
inductive FvDialOutcome
  | connectFail
  | exchangeFail
  | response (value : Option (List Nat)) (contacts : Option FindNodeResponse)
deriving DecidableEq

/-- Static parameters of a FIND_VALUE run (the fields of FindValueIter that
stay fixed across next calls, src/net/node.rs lines 46-65). The network and
the reversed-connection machinery are abstracted into the dial oracle env;
do_verify is the caller-supplied verifier with the target id already
applied. -/
structure FindValueParams where
  sockets : SocketCollection
  self_id : Nat
  id : Nat
  visit_limit : Nat
  bucket_size : Nat
  narrow_down : Bool
  use_relays : Bool
  env : NodeContactInfo → ContactStrategy → FvDialOutcome
  do_verify : NodeContactInfo → List Nat → Option Nat

/-- Candidate-queue update of FindValueIter::next after a response carrying
fingers (src/net/node.rs lines 1307-1337): extract fingers, narrow them to
strictly closer ones when narrow_down is set, merge into the queue, and cap
the queue at bucket_size when narrow_down is set. -/
def fv_merge_candidates (P : FindValueParams) (dist : Nat)
    (rest : List Candidate) (visited : List (Nat × ContactOption))
    (contacts : Option FindNodeResponse) : List Candidate :=
  match contacts with
  | none => rest
  | some find_node_response =>
    let new_fingers0 := extract_fingers_from_response P.sockets find_node_response visited
    let new_fingers :=
      if P.narrow_down then
        new_fingers0.filter (fun fs => decide (distance P.id fs.1.node_id < dist))
      else new_fingers0
    let appended := append_candidates P.id rest new_fingers
    if P.narrow_down then trim_back P.bucket_size appended else appended

/-- FindValueIter::next (src/net/node.rs lines 1224-1371): pop candidates
until one yields a value accepted by the verifier; the candidate is dropped
if it is the local node or its contact option was already visited, a Relay
candidate is skipped when use_relays is off (still consuming a visited
slot), and a received value rejected by the verifier is discarded while the
iteration continues. Returns the verifier's result for the first accepted
value. -/
def find_value_next (P : FindValueParams) (candidates : List Candidate)
    (visited : List (Nat × ContactOption)) : Option Nat :=
  match candidates with
  | [] => none
  | (dist, candidate_contact, strategy) :: rest =>
    if P.visit_limit ≤ visited.length then none
    else
      if candidate_contact.node_id = P.self_id then
        find_value_next P rest visited
      else if (visited.find? (fun v => v.2 = strategy.contact)).isSome then
        find_value_next P rest visited
      else
        let visited2 := visited ++ [(candidate_contact.node_id, strategy.contact)]
        if strategy.method = ContactStrategyMethod.relay ∧ P.use_relays = false then
          find_value_next P rest visited2
        else
          match P.env candidate_contact strategy with
          | FvDialOutcome.connectFail => find_value_next P rest visited2
          | FvDialOutcome.exchangeFail => find_value_next P rest visited2
          | FvDialOutcome.response possible_value possible_contacts =>
            let candidates2 := fv_merge_candidates P dist rest visited2 possible_contacts
            match possible_value with
            | some value =>
              match P.do_verify candidate_contact value with
              | some result => some result
              | none => find_value_next P candidates2 visited2
            | none => find_value_next P candidates2 visited2
termination_by (P.visit_limit - visited.length, candidates.length)
decreasing_by
  all_goals first
    | (apply Prod.Lex.right; simp)
    | (apply Prod.Lex.left; simp; omega)

/-! Theorems. -/

/-- C8: for every sstp result, handle_connection_issue returns none on any
error (the surrounding search continues instead of aborting), marks the
peer problematic on Timeout, rejects the peer on every non-forgivable
error — the protocol violations InvalidSignature, InvalidNodeId,
InvalidMessageType, InvalidSessionId and MalformedMessage all being
non-forgivable — and on success returns the value and marks the peer
helpful. -/
theorem c8_handle_connection_issue_behaviour :
    (∀ (T : Type) (e : Error),
      (handle_connection_issue (T := T) (Except.error e)).1 = none)
    ∧ (handle_connection_issue (T := Unit) (Except.error Error.timeout)).2
        = BucketAction.markProblematic
    ∧ (∀ (e : Error), e.forgivable = false →
        (handle_connection_issue (T := Unit) (Except.error e)).2 = BucketAction.reject)
    ∧ (Error.invalidSignature.forgivable = false
       ∧ Error.invalidNodeId.forgivable = false
       ∧ Error.invalidMessageType.forgivable = false
       ∧ (∀ n : Nat, (Error.invalidSessionId n).forgivable = false)
       ∧ Error.malformedMessage.forgivable = false)
    ∧ (∀ (T : Type) (v : T),
        handle_connection_issue (Except.ok v) = (some v, BucketAction.markHelpful)) := by
  refine ⟨?_, rfl, ?_, ⟨rfl, rfl, rfl, fun n => rfl, rfl⟩, fun T v => rfl⟩
  · intro T e
    cases e <;> rfl
  · intro e he
    cases e <;> simp_all [handle_connection_issue, Error.forgivable]

/-- C8 witness: the theorem applied at the concrete input InvalidSignature. -/
theorem c8_witness :
    (handle_connection_issue (T := Unit) (Except.error Error.invalidSignature)).2
      = BucketAction.reject :=
  c8_handle_connection_issue_behaviour.2.2.1 Error.invalidSignature rfl

/-- C7: with expect_fingers = false the responder frames the reply as one
presence byte followed by the raw value bytes (byte 1) or the serialized
FindNodeResponse (byte 0); the requester parses a value exactly when the
first byte is 1, no value when it is 0, and raises MalformedMessage for
every other first byte. -/
theorem c7_find_value_framing_roundtrip :
    (∀ (value fnr_bytes : List Nat),
      find_value_response_no_fingers (some value) fnr_bytes = 1 :: value
      ∧ process_find_value_response_nf (find_value_response_no_fingers (some value) fnr_bytes)
          = FvParseOutcome.ok (some value))
    ∧ (∀ fnr_bytes : List Nat,
      find_value_response_no_fingers none fnr_bytes = 0 :: fnr_bytes
      ∧ process_find_value_response_nf (find_value_response_no_fingers none fnr_bytes)
          = FvParseOutcome.ok none)
    ∧ (∀ (b : Nat) (rest : List Nat), b ≠ 0 → b ≠ 1 →
      process_find_value_response_nf (b :: rest)
        = FvParseOutcome.connectionIssue Error.malformedMessage)
    ∧ (∀ (b : Nat) (rest : List Nat),
      (∃ v, process_find_value_response_nf (b :: rest) = FvParseOutcome.ok (some v)) ↔ b = 1) := by
  refine ⟨?_, ?_, ?_, ?_⟩
  · intro value fnr_bytes
    exact ⟨rfl, rfl⟩
  · intro fnr_bytes
    exact ⟨rfl, rfl⟩
  · intro b rest h0 h1
    simp [process_find_value_response_nf, h0, h1]
  · intro b rest
    by_cases h1 : b = 1
    · subst h1
      simp [process_find_value_response_nf]
    · by_cases h0 : b = 0 <;> simp [process_find_value_response_nf, h0, h1]

/-- C7 witness: the theorem applied at first byte 7, and at a present
value. -/
theorem c7_witness :
    process_find_value_response_nf (7 :: [9, 9])
      = FvParseOutcome.connectionIssue Error.malformedMessage
    ∧ process_find_value_response_nf (find_value_response_no_fingers (some [4, 2]) [])
        = FvParseOutcome.ok (some [4, 2]) :=
  ⟨c7_find_value_framing_roundtrip.2.2.1 7 [9, 9] (by decide) (by decide),
   (c7_find_value_framing_roundtrip.1 [4, 2] []).2⟩

/-- An empty session-data value, used to populate concrete session maps. -/
def dummy_session : SessionData :=
  { their_node_id := none, transport_data := SessionTransportData.empty }

/-- A session map occupying exactly the ids below n. -/
def ids_below : Nat → List (Nat × SessionData)
  | 0 => []
  | n + 1 => (n, dummy_session) :: ids_below n

theorem containsKey_ids_below (m k : Nat) :
    containsKey (ids_below m) k = decide (k < m) := by
  induction m with
  | zero => simp [ids_below, containsKey, assocFind]
  | succ n ih =>
    by_cases h : n = k
    · subst h
      simp [ids_below, containsKey, assocFind]
    · simp only [ids_below, containsKey, assocFind, if_neg h]
      rw [← containsKey]
      rw [ih]
      rw [decide_eq_decide]
      omega

theorem next_id_core_all_occupied (occupied : Nat → Bool) :
    ∀ (fuel cur : Nat), cur < 65536 →
    (∀ j, j < fuel → occupied ((cur + j) % 65536) = true) →
    (next_id_core occupied cur fuel).1 = none := by
  intro fuel
  induction fuel with
  | zero => intro cur _ _; rfl
  | succ n ih =>
    intro cur hcur h
    have h0 : occupied cur = true := by
      have := h 0 (by omega)
      rwa [Nat.add_zero, Nat.mod_eq_of_lt hcur] at this
    rw [next_id_core, if_pos h0]
    apply ih ((cur + 1) % 65536) (Nat.mod_lt _ (by omega))
    intro j hj
    have hj2 := h (j + 1) (by omega)
    rwa [Nat.mod_add_mod, show cur + 1 + j = cur + (j + 1) by omega]

/-- The session state with ids 0 to 65534 occupied and cursor 0; id 65535
is still free. -/
def c3_sessions : Sessions :=
  { map := ids_below 65535, next_id := 0 }

theorem Sessions.nextId_fst (s : Sessions) :
    (Sessions.nextId s).1 = (next_id_core (containsKey s.map) s.next_id 65535).1 := rfl

theorem c3_sessions_map : c3_sessions.map = ids_below 65535 := rfl

theorem c3_sessions_cursor : c3_sessions.next_id = 0 := rfl

theorem connect_allocate_of_none (s : Sessions) (data : SessionData)
    (h : (Sessions.nextId s).1 = none) :
    connect_allocate_session s data = Except.error Error.outOfSessions := by
  unfold connect_allocate_session
  rcases hn : Sessions.nextId s with ⟨r, s2⟩
  rw [hn] at h
  simp only at h
  subst h
  rfl

/-- C3: failing input for Sessions::next_id. With 65535 of the 65536 ids
occupied and the lone free id sitting exactly 65535 steps past the cursor,
the allocator gives up after 65535 probes and returns none although a free
id exists — so the callers connect aborts with OutOfSessions even though
the id space is not exhausted, contradicting the function's own doc comment
(None only if all session ids are taken). -/
theorem c3_next_id_gives_up_with_free_id_left :
    (Sessions.nextId c3_sessions).1 = none
    ∧ containsKey c3_sessions.map 65535 = false
    ∧ connect_allocate_session c3_sessions dummy_session
        = Except.error Error.outOfSessions := by
  have hnone : (Sessions.nextId c3_sessions).1 = none := by
    rw [Sessions.nextId_fst, c3_sessions_map, c3_sessions_cursor]
    apply next_id_core_all_occupied _ _ _ (by omega)
    intro j hj
    rw [Nat.zero_add, Nat.mod_eq_of_lt (by omega), containsKey_ids_below]
    simpa using hj
  refine ⟨hnone, ?_, connect_allocate_of_none _ _ hnone⟩
  rw [c3_sessions_map, containsKey_ids_below]
  rfl

/-- C3 supporting theorem: whenever next_id does return an id, that id is
not a key of the map, and the cursor advances past it by wrapping
increment. -/
theorem c3_next_id_fresh :
    ∀ (s : Sessions) (id : Nat) (s2 : Sessions),
      Sessions.nextId s = (some id, s2) →
      containsKey s.map id = false ∧ s2.next_id = (id + 1) % 65536 := by
  have core : ∀ (occupied : Nat → Bool) (fuel cur id cur2 : Nat),
      next_id_core occupied cur fuel = (some id, cur2) →
      occupied id = false ∧ cur2 = (id + 1) % 65536 := by
    intro occupied fuel
    induction fuel with
    | zero => intro cur id cur2 h; simp [next_id_core] at h
    | succ n ih =>
      intro cur id cur2 h
      rw [next_id_core] at h
      by_cases hocc : occupied cur = true
      · rw [if_pos hocc] at h
        exact ih _ _ _ h
      · rw [if_neg hocc] at h
        simp at h
        obtain ⟨h1, h2⟩ := h
        subst h1
        exact ⟨by simpa using hocc, h2.symm⟩
  intro s id s2 h
  unfold Sessions.nextId at h
  rcases hc : next_id_core (containsKey s.map) s.next_id 65535 with ⟨r, cur2⟩
  rw [hc] at h
  simp at h
  obtain ⟨h1, h2⟩ := h
  obtain ⟨hf, hcur⟩ := core _ _ _ _ _ (by rw [hc, h1])
  exact ⟨hf, by rw [← h2]; simpa using hcur⟩

/-- C3 witness for the supporting theorem: allocation from an empty map
yields id 0, which is fresh, and cursor 1. -/
theorem c3_witness :
    containsKey (Sessions.map { map := [], next_id := 0 }) 0 = false
    ∧ (Sessions.nextId { map := [], next_id := 0 }).2.next_id = (0 + 1) % 65536 := by
  have h := c3_next_id_fresh { map := [], next_id := 0 } 0
    ((Sessions.nextId { map := [], next_id := 0 }).2) (by rfl)
  exact ⟨h.1, h.2⟩

theorem assocFind_assocErase {α : Type} (l : List (Nat × α)) (k : Nat) :
    assocFind (assocErase l k) k = none := by
  induction l with
  | nil => rfl
  | cons p rest ih =>
    by_cases h : p.1 = k
    · simpa [assocErase, List.filter_cons, h] using ih
    · simpa [assocErase, List.filter_cons, assocFind, h] using ih

/-- C9: a CRYPTED packet whose session id is not a key of the session table
is dropped silently — the dispatcher arm returns Ok and the table is
untouched, and no InvalidSessionId error exists at this interface; a packet
addressing a Direct session whose packet queue has been closed causes that
session to be removed from the table during the same call. -/
theorem c9_crypted_unknown_session_and_closed_queue :
    (∀ (sessions : List (Nat × SessionData)) (sender : SocketAddr) (buffer : List Nat),
      assocFind sessions (from_le16 (buffer.getD 0 0) (buffer.getD 1 0)) = none →
      process_packet_crypted sessions sender buffer
        = Except.ok (sessions, CryptedAction.droppedUnknownSession))
    ∧ (∀ (sessions : List (Nat × SessionData)) (sender : SocketAddr) (buffer : List Nat)
        (sd : SessionData) (d : SessionTransportDataDirect),
      assocFind sessions (from_le16 (buffer.getD 0 0) (buffer.getD 1 0)) = some sd →
      sd.transport_data = SessionTransportData.direct d →
      d.queue_closed = true →
      (process_crypted_packet sessions sender buffer).1
          = assocErase sessions (from_le16 (buffer.getD 0 0) (buffer.getD 1 0))
        ∧ assocFind (process_crypted_packet sessions sender buffer).1
            (from_le16 (buffer.getD 0 0) (buffer.getD 1 0)) = none) := by
  constructor
  · intro sessions sender buffer h
    simp only [process_packet_crypted, process_crypted_packet, h]
  · intro sessions sender buffer sd d h htd hq
    have h1 : (process_crypted_packet sessions sender buffer).1
        = assocErase sessions (from_le16 (buffer.getD 0 0) (buffer.getD 1 0)) := by
      simp only [process_crypted_packet, h, htd, hq, if_true]
    exact ⟨h1, by rw [h1]; exact assocFind_assocErase _ _⟩

/-- A direct session whose packet queue has been closed, at session id 5. -/
def c9_closed_session : SessionData :=
  { their_node_id := some 1,
    transport_data := SessionTransportData.direct
      { dest_session_id := some 2, encrypt_session_id := some 2,
        has_hello_channel := false, relay_node_id := none,
        has_handle := false, queue_closed := true } }

/-- C9 witness: the theorem applied to an empty table and to a
single-entry table with a closed queue. -/
theorem c9_witness :
    process_packet_crypted [] (SocketAddr.v4 1 1) [5, 0, 0, 0, 0, 0]
      = Except.ok ([], CryptedAction.droppedUnknownSession)
    ∧ assocFind
        (process_crypted_packet [(5, c9_closed_session)] (SocketAddr.v4 1 1)
          [5, 0, 0, 0, 0, 0]).1
        (from_le16 ((([5, 0, 0, 0, 0, 0] : List Nat)).getD 0 0)
          ((([5, 0, 0, 0, 0, 0] : List Nat)).getD 1 0)) = none :=
  ⟨c9_crypted_unknown_session_and_closed_queue.1 [] (SocketAddr.v4 1 1)
      [5, 0, 0, 0, 0, 0] (by rfl),
   (c9_crypted_unknown_session_and_closed_queue.2 [(5, c9_closed_session)]
      (SocketAddr.v4 1 1) [5, 0, 0, 0, 0, 0] c9_closed_session
      { dest_session_id := some 2, encrypt_session_id := some 2,
        has_hello_channel := false, relay_node_id := none,
        has_handle := false, queue_closed := true }
      (by rfl) (by rfl) (by rfl)).2⟩

/-- C6: a CRYPTED packet arriving at a Relay session is bridged without
decryption: from the source address it goes out on the target link sender
carrying the target session id, from the target address on the source link
sender carrying the source session id, and in both directions everything
after the rewritten 16-bit session id field — ks_seq, seq and the encrypted
payload — is forwarded byte for byte. -/
theorem c6_relay_rewrites_session_id_only :
    ∀ (sessions : List (Nat × SessionData)) (sender : SocketAddr) (b0 b1 : Nat)
      (tail : List Nat) (sd : SessionData) (r : SessionTransportDataRelay),
      assocFind sessions (from_le16 b0 b1) = some sd →
      sd.transport_data = SessionTransportData.relay r →
      ((sender = r.source_addr →
        (process_crypted_packet sessions sender (b0 :: b1 :: tail)).2
          = CryptedAction.forwardedToTarget
              (PACKET_TYPE_CRYPTED :: (le16 r.target_session_id ++ tail))
              r.target_send_ok)
       ∧ (sender ≠ r.source_addr → sender = r.target_addr →
        (process_crypted_packet sessions sender (b0 :: b1 :: tail)).2
          = CryptedAction.forwardedToSource
              (PACKET_TYPE_CRYPTED :: (le16 r.source_session_id ++ tail))
              r.source_send_ok)) := by
  intro sessions sender b0 b1 tail sd r h htd
  constructor
  · intro hs
    simp only [process_crypted_packet, List.getD_cons_zero, List.getD_cons_succ,
      h, htd, relay_crypted_packet, List.drop_succ_cons, List.drop_zero, if_pos hs]
  · intro hns hts
    simp only [process_crypted_packet, List.getD_cons_zero, List.getD_cons_succ,
      h, htd, relay_crypted_packet, List.drop_succ_cons, List.drop_zero,
      if_neg hns, if_pos hts]

/-- A relay session bridging source (address v4 1 1, session 7) and target
(address v4 2 2, session 9), stored under local session id 5. -/
def c6_relay_session : SessionData :=
  { their_node_id := some 4,
    transport_data := SessionTransportData.relay
      { source_session_id := 7, source_addr := SocketAddr.v4 1 1, source_send_ok := true,
        target_session_id := 9, target_addr := SocketAddr.v4 2 2, target_send_ok := true } }

/-- C6 witness: the theorem applied to the concrete relay session in both
directions. -/
theorem c6_witness :
    (process_crypted_packet [(5, c6_relay_session)] (SocketAddr.v4 1 1)
        (5 :: 0 :: [1, 0, 2, 0, 77, 78])).2
      = CryptedAction.forwardedToTarget
          (PACKET_TYPE_CRYPTED :: (le16 9 ++ [1, 0, 2, 0, 77, 78])) true
    ∧ (process_crypted_packet [(5, c6_relay_session)] (SocketAddr.v4 2 2)
        (5 :: 0 :: [1, 0, 2, 0, 77, 78])).2
      = CryptedAction.forwardedToSource
          (PACKET_TYPE_CRYPTED :: (le16 7 ++ [1, 0, 2, 0, 77, 78])) true :=
  ⟨(c6_relay_rewrites_session_id_only [(5, c6_relay_session)] (SocketAddr.v4 1 1)
      5 0 [1, 0, 2, 0, 77, 78] c6_relay_session
      { source_session_id := 7, source_addr := SocketAddr.v4 1 1, source_send_ok := true,
        target_session_id := 9, target_addr := SocketAddr.v4 2 2, target_send_ok := true }
      (by rfl) (by rfl)).1 (by rfl),
   (c6_relay_rewrites_session_id_only [(5, c6_relay_session)] (SocketAddr.v4 2 2)
      5 0 [1, 0, 2, 0, 77, 78] c6_relay_session
      { source_session_id := 7, source_addr := SocketAddr.v4 1 1, source_send_ok := true,
        target_session_id := 9, target_addr := SocketAddr.v4 2 2, target_send_ok := true }
      (by rfl) (by rfl)).2 (by decide) (by rfl)⟩

/-- The empty contact info and observed address used in the C2 scenario. -/
def c2_ci : ContactInfo := { ipv4 := none, ipv6 := none }

/-- The link address the responder observed in the C2 scenario. -/
def c2_addr : SocketAddr := SocketAddr.v4 9 9

/-- The direct session created for the first HELLO of the C2 scenario. -/
def c2_session_data : SessionData :=
  { their_node_id := some 7,
    transport_data := SessionTransportData.direct
      { dest_session_id := some 5, encrypt_session_id := some 5,
        has_hello_channel := false, relay_node_id := none,
        has_handle := false, queue_closed := false } }

/-- Session table after the first HELLO of the C2 scenario. -/
def c2_s1 : Sessions := { map := [(0, c2_session_data)], next_id := 1 }

/-- The HELLO_ACK body the responder composes in the C2 scenario, as a
function of the freshly drawn ephemeral DH public key. -/
def c2_ack (dh : Nat) : HelloAckPacketBody :=
  { dh_public_key := dh, source_session_id := 5, server_session_id := 0,
    contact_info := c2_ci, link_address := c2_addr }

/-- C2: failing input for the handshake-idempotence claim. A HELLO from
node 7 with remote session id 5 is processed twice; the second (replayed)
processing reuses the same local session id 0 and reports is_new = false,
but the HELLO_ACK it resends is composed around the freshly drawn ephemeral
DH public key of that call (2 instead of 1), so the resent HELLO_ACK is not
equivalent to the original one. -/
theorem c2_replayed_hello_gets_fresh_dh_ack :
    process_hello_core { map := [], next_id := 0 } 1 7 5 5 c2_ci c2_addr
      = Except.ok ((0, true, c2_ack 1), c2_s1)
    ∧ process_hello_core c2_s1 2 7 5 5 c2_ci c2_addr
      = Except.ok ((0, false, c2_ack 2), c2_s1)
    ∧ (c2_ack 1).server_session_id = (c2_ack 2).server_session_id
    ∧ (c2_ack 1).dh_public_key ≠ (c2_ack 2).dh_public_key
    ∧ c2_ack 1 ≠ c2_ack 2 :=
  ⟨rfl, rfl, rfl, by decide, by decide⟩

/-- C2 supporting theorem: the session-id half of the claim does hold — a
HELLO whose (their_node_id, their_session_id) pair matches an existing
direct session allocates nothing and returns the existing local session id
with is_new = false and an unchanged session table. -/
theorem c2_replay_reuses_session_id :
    ∀ (s : Sessions) (their_node_id dest_session_id encrypt_session_id
        fresh_dh : Nat) (ci : ContactInfo) (addr : SocketAddr)
      (our_id : Nat) (sd : SessionData),
      find_their_session s.map their_node_id dest_session_id = some (our_id, sd) →
      process_hello_core s fresh_dh their_node_id dest_session_id
          encrypt_session_id ci addr
        = Except.ok ((our_id, false,
            { dh_public_key := fresh_dh, source_session_id := dest_session_id,
              server_session_id := our_id, contact_info := ci,
              link_address := addr }), s) := by
  intro s tni dsi esi dh ci addr our_id sd h
  simp only [process_hello_core, new_incomming_session, h]

/-- C2 witness for the supporting theorem: applied to the concrete replay
state of the scenario. -/
theorem c2_witness :
    process_hello_core c2_s1 2 7 5 5 c2_ci c2_addr
      = Except.ok ((0, false,
          { dh_public_key := 2, source_session_id := 5, server_session_id := 0,
            contact_info := c2_ci, link_address := c2_addr }), c2_s1) :=
  c2_replay_reuses_session_id c2_s1 7 5 5 2 c2_ci c2_addr 0 c2_session_data (by rfl)

theorem orElseO_assoc {α : Type} (a b c : Option α) :
    orElseO (orElseO a b) c = orElseO a (orElseO b c) := by
  cases a <;> rfl

theorem orElseO_none_right {α : Type} (a : Option α) : orElseO a none = a := by
  cases a <;> rfl

theorem orElseO_map {α β : Type} (f : α → β) (a b : Option α) :
    (orElseO a b).map f = orElseO (a.map f) (b.map f) := by
  cases a <;> rfl

theorem orElseO_eq_some {α : Type} (a b : Option α) (x : α)
    (h : orElseO a b = some x) : a = some x ∨ b = some x := by
  cases a with
  | none => exact Or.inr h
  | some y => exact Or.inl h

theorem filterMap_head_foldr {α β : Type} (f : α → Option β) (l : List α) :
    (l.filterMap f).head? = l.foldr (fun a acc => orElseO (f a) acc) none := by
  induction l with
  | nil => rfl
  | cons a rest ih =>
    cases h : f a <;> simp [List.filterMap_cons, h, orElseO, ih]

theorem pick_v6_udp_eq (s : SocketCollection) (t : ContactInfo) (o : Openness) :
    pick_v6_udp s t o = slot_filtered s t IpFamily.v6 Proto.udp o := by
  obtain ⟨s4, s6⟩ := s
  obtain ⟨t4, t6⟩ := t
  rcases s6 with _ | ⟨ssu, sst⟩
  · rfl
  rcases t6 with _ | ⟨ta, ⟨tu, tt⟩⟩
  · rfl
  cases ssu
  · rfl
  rcases tu with _ | ⟨tp, topen⟩
  · rfl
  by_cases h : topen = o <;>
    simp [pick_v6_udp, slot_filtered, slot_option, h]

theorem pick_v6_tcp_eq (s : SocketCollection) (t : ContactInfo) (o : Openness) :
    pick_v6_tcp s t o = slot_filtered s t IpFamily.v6 Proto.tcp o := by
  obtain ⟨s4, s6⟩ := s
  obtain ⟨t4, t6⟩ := t
  rcases s6 with _ | ⟨ssu, sst⟩
  · rfl
  rcases t6 with _ | ⟨ta, ⟨tu, tt⟩⟩
  · rfl
  cases sst
  · rfl
  rcases tt with _ | ⟨tp, topen⟩
  · rfl
  by_cases h : topen = o <;>
    simp [pick_v6_tcp, slot_filtered, slot_option, h]

theorem pick_v4_udp_eq (s : SocketCollection) (t : ContactInfo) (o : Openness) :
    pick_v4_udp s t o = slot_filtered s t IpFamily.v4 Proto.udp o := by
  obtain ⟨s4, s6⟩ := s
  obtain ⟨t4, t6⟩ := t
  rcases s4 with _ | ⟨ssu, sst⟩
  · rfl
  rcases t4 with _ | ⟨ta, ⟨tu, tt⟩⟩
  · rfl
  cases ssu
  · rfl
  rcases tu with _ | ⟨tp, topen⟩
  · rfl
  by_cases h : topen = o <;>
    simp [pick_v4_udp, slot_filtered, slot_option, h]

theorem pick_v4_tcp_eq (s : SocketCollection) (t : ContactInfo) (o : Openness) :
    pick_v4_tcp s t o = slot_filtered s t IpFamily.v4 Proto.tcp o := by
  obtain ⟨s4, s6⟩ := s
  obtain ⟨t4, t6⟩ := t
  rcases s4 with _ | ⟨ssu, sst⟩
  · rfl
  rcases t4 with _ | ⟨ta, ⟨tu, tt⟩⟩
  · rfl
  cases sst
  · rfl
  rcases tt with _ | ⟨tp, topen⟩
  · rfl
  by_cases h : topen = o <;>
    simp [pick_v4_tcp, slot_filtered, slot_option, h]

theorem slot_filtered_map (s : SocketCollection) (t : ContactInfo)
    (fam : IpFamily) (proto : Proto) (o : Openness) :
    (slot_filtered s t fam proto o).map (fun co => (co, o))
      = slot_pair s t fam proto o := by
  unfold slot_filtered slot_pair
  rcases slot_option s t fam proto with _ | ⟨co, adv⟩
  · rfl
  · by_cases h : adv = o <;> simp [h]

theorem pick_contact_option_eq_orElse (s : SocketCollection) (t : ContactInfo) :
    pick_contact_option s t
      = orElseO ((pick_contact_option_at_openness s t Openness.bidirectional).map
            (fun co => (co, Openness.bidirectional)))
          (orElseO ((pick_contact_option_at_openness s t Openness.punchable).map
              (fun co => (co, Openness.punchable)))
            ((pick_contact_option_at_openness s t Openness.unidirectional).map
              (fun co => (co, Openness.unidirectional)))) := by
  unfold pick_contact_option
  cases pick_contact_option_at_openness s t Openness.bidirectional <;>
    cases pick_contact_option_at_openness s t Openness.punchable <;>
      cases pick_contact_option_at_openness s t Openness.unidirectional <;> rfl

theorem pick_at_openness_eq_slots (s : SocketCollection) (t : ContactInfo)
    (o : Openness) :
    pick_contact_option_at_openness s t o
      = orElseO (slot_filtered s t IpFamily.v6 Proto.udp o)
          (orElseO (slot_filtered s t IpFamily.v6 Proto.tcp o)
            (orElseO (slot_filtered s t IpFamily.v4 Proto.udp o)
              (slot_filtered s t IpFamily.v4 Proto.tcp o))) := by
  unfold pick_contact_option_at_openness
  rw [pick_v6_udp_eq, pick_v6_tcp_eq, pick_v4_udp_eq, pick_v4_tcp_eq]

theorem slot_filtered_openness (s : SocketCollection) (t : ContactInfo)
    (fam : IpFamily) (proto : Proto) (o : Openness) (co : ContactOption)
    (h : slot_filtered s t fam proto o = some co) :
    openness_at_option t co = some o := by
  obtain ⟨s4, s6⟩ := s
  obtain ⟨t4, t6⟩ := t
  unfold slot_filtered at h
  rcases hs : slot_option ⟨s4, s6⟩ ⟨t4, t6⟩ fam proto with _ | ⟨co2, adv⟩ <;>
    rw [hs] at h
  · exact absurd h (by simp)
  dsimp only at h
  have hadv : adv = o := by
    by_cases ha : adv = o
    · exact ha
    · rw [if_neg ha] at h
      exact absurd h (by simp)
  obtain rfl : co2 = co := by
    rw [if_pos hadv] at h
    simpa using h
  subst hadv
  clear h
  cases fam with
  | v6 =>
    cases proto with
    | udp =>
      rcases s6 with _ | ⟨ssu, sst⟩
      · simp [slot_option] at hs
      rcases t6 with _ | ⟨ta, ⟨tu, tt⟩⟩
      · simp [slot_option] at hs
      cases ssu
      · simp [slot_option] at hs
      rcases tu with _ | ⟨tp, topen⟩
      · simp [slot_option] at hs
      simp [slot_option] at hs
      rcases hs with ⟨rfl, rfl⟩
      rfl
    | tcp =>
      rcases s6 with _ | ⟨ssu, sst⟩
      · simp [slot_option] at hs
      rcases t6 with _ | ⟨ta, ⟨tu, tt⟩⟩
      · simp [slot_option] at hs
      cases sst
      · simp [slot_option] at hs
      rcases tt with _ | ⟨tp, topen⟩
      · simp [slot_option] at hs
      simp [slot_option] at hs
      rcases hs with ⟨rfl, rfl⟩
      rfl
  | v4 =>
    cases proto with
    | udp =>
      rcases s4 with _ | ⟨ssu, sst⟩
      · simp [slot_option] at hs
      rcases t4 with _ | ⟨ta, ⟨tu, tt⟩⟩
      · simp [slot_option] at hs
      cases ssu
      · simp [slot_option] at hs
      rcases tu with _ | ⟨tp, topen⟩
      · simp [slot_option] at hs
      simp [slot_option] at hs
      rcases hs with ⟨rfl, rfl⟩
      rfl
    | tcp =>
      rcases s4 with _ | ⟨ssu, sst⟩
      · simp [slot_option] at hs
      rcases t4 with _ | ⟨ta, ⟨tu, tt⟩⟩
      · simp [slot_option] at hs
      cases sst
      · simp [slot_option] at hs
      rcases tt with _ | ⟨tp, topen⟩
      · simp [slot_option] at hs
      simp [slot_option] at hs
      rcases hs with ⟨rfl, rfl⟩
      rfl

/-- C10: pick_contact_option selects the first matching option in the
fixed preference order — openness classes Bidirectional, Punchable,
Unidirectional, and inside one class IPv6 before IPv4 and UDP before
TCP — and the openness it returns alongside the option always equals the
remote transport entry's advertised openness at the chosen option. -/
theorem c10_pick_contact_option_first_match :
    ∀ (s : SocketCollection) (t : ContactInfo),
      pick_contact_option s t = pick_contact_option_spec s t
      ∧ ∀ (co : ContactOption) (o : Openness),
          pick_contact_option s t = some (co, o) →
          openness_at_option t co = some o := by
  intro s t
  constructor
  · rw [pick_contact_option_spec, filterMap_head_foldr]
    simp only [preference_order, List.foldr_cons, List.foldr_nil]
    rw [pick_contact_option_eq_orElse]
    simp only [pick_at_openness_eq_slots, orElseO_map, slot_filtered_map,
      orElseO_assoc, orElseO_none_right]
  · intro co o h
    have hat : pick_contact_option_at_openness s t o = some co := by
      unfold pick_contact_option at h
      rcases h1 : pick_contact_option_at_openness s t Openness.bidirectional with _ | c1 <;>
        rw [h1] at h
      · rcases h2 : pick_contact_option_at_openness s t Openness.punchable with _ | c2 <;>
          rw [h2] at h
        · rcases h3 : pick_contact_option_at_openness s t Openness.unidirectional with _ | c3 <;>
            rw [h3] at h
          · exact absurd h (by simp)
          · have h4 : c3 = co ∧ Openness.unidirectional = o := by simpa using h
            obtain ⟨rfl, rfl⟩ := h4
            exact h3
        · have h4 : c2 = co ∧ Openness.punchable = o := by simpa using h
          obtain ⟨rfl, rfl⟩ := h4
          exact h2
      · have h4 : c1 = co ∧ Openness.bidirectional = o := by simpa using h
        obtain ⟨rfl, rfl⟩ := h4
        exact h1
    rw [pick_at_openness_eq_slots] at hat
    rcases orElseO_eq_some _ _ _ hat with h1 | hrest
    · exact slot_filtered_openness _ _ _ _ _ _ h1
    rcases orElseO_eq_some _ _ _ hrest with h2 | hrest2
    · exact slot_filtered_openness _ _ _ _ _ _ h2
    rcases orElseO_eq_some _ _ _ hrest2 with h3 | h4
    · exact slot_filtered_openness _ _ _ _ _ _ h3
    · exact slot_filtered_openness _ _ _ _ _ _ h4

/-- Local sockets for the C10 and C1 scenarios: IPv4 UDP only. -/
def c10_sockets : SocketCollection :=
  { ipv4 := some { udp := true, tcp := false }, ipv6 := none }

/-- Remote contact for the C10 witness: IPv4 UDP advertised Punchable. -/
def c10_target : ContactInfo :=
  { ipv4 := some
      { addr := 1,
        availability :=
          { udp := some { port := 1000, openness := Openness.punchable },
            tcp := none } },
    ipv6 := none }

/-- C10 witness: the theorem applied to the concrete target, with the
openness-agreement hypothesis discharged by evaluation. -/
theorem c10_witness :
    pick_contact_option c10_sockets c10_target
      = pick_contact_option_spec c10_sockets c10_target
    ∧ openness_at_option c10_target
        { target := SocketAddr.v4 1 1000, use_tcp := false }
      = some Openness.punchable :=
  ⟨(c10_pick_contact_option_first_match c10_sockets c10_target).1,
   (c10_pick_contact_option_first_match c10_sockets c10_target).2
     { target := SocketAddr.v4 1 1000, use_tcp := false } Openness.punchable (by decide)⟩

/-- Remote contact for the C1 counterexample: IPv4 UDP advertised
Unidirectional. -/
def c1_target : ContactInfo :=
  { ipv4 := some
      { addr := 1,
        availability :=
          { udp := some { port := 1000, openness := Openness.unidirectional },
            tcp := none } },
    ipv6 := none }

/-- Local contact info for the C1 counterexample: IPv4 UDP advertised
Bidirectional, so the local side is not Unidirectional at the chosen
option. -/
def c1_own : ContactInfo :=
  { ipv4 := some
      { addr := 2,
        availability :=
          { udp := some { port := 2000, openness := Openness.bidirectional },
            tcp := none } },
    ipv6 := none }

/-- C1 counterexample: the remote advertises Unidirectional at the chosen
option and the local side is Bidirectional there, so the claim prescribes
Relay; the source instead picks HolePunch in exactly this case (and Relay
only when the local side is itself Unidirectional). -/
theorem c1_counterexample :
    pick_contact_option c10_sockets c1_target
      = some ({ target := SocketAddr.v4 1 1000, use_tcp := false },
              Openness.unidirectional)
    ∧ openness_at_option c1_own { target := SocketAddr.v4 1 1000, use_tcp := false }
        = some Openness.bidirectional
    ∧ pick_contact_strategy c10_sockets c1_own c1_target
        = some { contact := { target := SocketAddr.v4 1 1000, use_tcp := false },
                 method := ContactStrategyMethod.holePunch }
    ∧ ContactStrategyMethod.holePunch ≠ ContactStrategyMethod.relay := by
  refine ⟨by decide, by decide, by decide, by decide⟩

/-- C1 amended: whenever pick_contact_strategy chooses a strategy, the
method is Direct for a remote advertising Bidirectional at the chosen
option and HolePunch for Punchable; for Unidirectional the local openness
at the option is consulted, and the method is HolePunch unless the local
side is itself Unidirectional there, in which case Relay. -/
theorem c1_contact_strategy_amended :
    ∀ (sockets : SocketCollection) (own target : ContactInfo)
      (st : ContactStrategy),
      pick_contact_strategy sockets own target = some st →
      ∃ adv, pick_contact_option sockets target = some (st.contact, adv)
        ∧ (adv = Openness.bidirectional → st.method = ContactStrategyMethod.direct)
        ∧ (adv = Openness.punchable → st.method = ContactStrategyMethod.holePunch)
        ∧ (adv = Openness.unidirectional →
            ∃ own_openness, openness_at_option own st.contact = some own_openness
              ∧ st.method = (if own_openness = Openness.unidirectional then
                  ContactStrategyMethod.relay else ContactStrategyMethod.holePunch)) := by
  intro sockets own target st h
  unfold pick_contact_strategy at h
  rcases hp : pick_contact_option sockets target with _ | ⟨option, openness⟩ <;>
    rw [hp] at h
  · exact absurd h (by simp)
  dsimp only at h
  cases openness with
  | bidirectional =>
    obtain rfl : st = { method := ContactStrategyMethod.direct, contact := option } := by
      simpa using h.symm
    exact ⟨Openness.bidirectional, rfl, fun _ => rfl, by simp, by simp⟩
  | punchable =>
    obtain rfl : st = { method := ContactStrategyMethod.holePunch, contact := option } := by
      simpa using h.symm
    exact ⟨Openness.punchable, rfl, by simp, fun _ => rfl, by simp⟩
  | unidirectional =>
    dsimp only at h
    rcases ho : openness_at_option own option with _ | own_openness
    · rw [ho] at h
      exact absurd h (by simp)
    rw [ho] at h
    dsimp only at h
    obtain rfl : st =
        { contact := option,
          method :=
            if own_openness ≠ Openness.unidirectional then ContactStrategyMethod.holePunch
            else ContactStrategyMethod.relay } := by
      simpa using h.symm
    refine ⟨Openness.unidirectional, rfl, by simp, by simp, fun _ => ?_⟩
    refine ⟨own_openness, ho, ?_⟩
    by_cases hu : own_openness = Openness.unidirectional <;> simp [hu]

/-- The strategy the source actually picks on the C1 counterexample
input. -/
def c1_strategy : ContactStrategy :=
  { contact := { target := SocketAddr.v4 1 1000, use_tcp := false },
    method := ContactStrategyMethod.holePunch }

/-- C1 witness for the amended theorem: applied to the counterexample
input, where the remote is Unidirectional and the local side Bidirectional,
giving HolePunch. -/
theorem c1_witness :
    ∃ adv, pick_contact_option c10_sockets c1_target = some (c1_strategy.contact, adv)
      ∧ (adv = Openness.bidirectional →
          c1_strategy.method = ContactStrategyMethod.direct)
      ∧ (adv = Openness.punchable →
          c1_strategy.method = ContactStrategyMethod.holePunch)
      ∧ (adv = Openness.unidirectional →
          ∃ own_openness,
            openness_at_option c1_own c1_strategy.contact = some own_openness
            ∧ c1_strategy.method
              = (if own_openness = Openness.unidirectional then
                  ContactStrategyMethod.relay else ContactStrategyMethod.holePunch)) :=
  c1_contact_strategy_amended c10_sockets c1_own c1_target c1_strategy (by decide)

theorem bool_not_true {b : Bool} (h : ¬ b = true) : b = false := by
  cases b
  · rfl
  · exact absurd rfl h

theorem find_node_go_nil (P : FindNodeParams) (found : List Candidate)
    (visited : List (Nat × ContactOption)) (i : Nat) :
    find_node_go P [] found visited i = (found, visited) := by
  rw [find_node_go]

theorem find_node_go_limit (P : FindNodeParams) (d : Nat) (c : NodeContactInfo)
    (strat : ContactStrategy) (rest found : List Candidate)
    (visited : List (Nat × ContactOption)) (i : Nat)
    (hi : P.visit_limit ≤ i) :
    find_node_go P ((d, c, strat) :: rest) found visited i = (found, visited) := by
  rw [find_node_go]
  simp only [if_pos hi]

theorem find_node_go_visited_hit (P : FindNodeParams) (d : Nat) (c : NodeContactInfo)
    (strat : ContactStrategy) (rest found : List Candidate)
    (visited : List (Nat × ContactOption)) (i : Nat)
    (hi : ¬ P.visit_limit ≤ i)
    (hv : (visited.find? (fun v => v.1 = c.node_id)).isSome = true) :
    find_node_go P ((d, c, strat) :: rest) found visited i
      = find_node_go P rest found visited i := by
  rw [find_node_go]
  simp only [if_neg hi, hv, if_true]

theorem find_node_go_dial_fail (P : FindNodeParams) (d : Nat) (c : NodeContactInfo)
    (strat : ContactStrategy) (rest found : List Candidate)
    (visited : List (Nat × ContactOption)) (i : Nat)
    (hi : ¬ P.visit_limit ≤ i)
    (hv : (visited.find? (fun v => v.1 = c.node_id)).isSome = false)
    (henv : P.env c strat = DialOutcome.connectFail ∨
            P.env c strat = DialOutcome.exchangeFail) :
    find_node_go P ((d, c, strat) :: rest) found visited i
      = find_node_go P ((d, c, strat) :: rest) found
          (visited ++ [(c.node_id, strat.contact)]) (i + 1) := by
  rw [find_node_go]
  rcases henv with h | h <;> simp only [if_neg hi, hv, Bool.false_eq_true, if_false, h]

theorem find_node_go_response (P : FindNodeParams) (d : Nat) (c : NodeContactInfo)
    (strat : ContactStrategy) (rest found : List Candidate)
    (visited : List (Nat × ContactOption)) (i : Nat)
    (resp : FindNodeResponse)
    (hi : ¬ P.visit_limit ≤ i)
    (hv : (visited.find? (fun v => v.1 = c.node_id)).isSome = false)
    (henv : P.env c strat = DialOutcome.response resp) :
    find_node_go P ((d, c, strat) :: rest) found visited i
      = (let visited2 := visited ++ [(c.node_id, strat.contact)]
         let new_fingers := retain_new_fingers P d
           (extract_fingers_from_response P.sockets resp visited2)
         let found2 := trim_back P.result_limit (append_candidates P.id found new_fingers)
         if (new_fingers.find? (fun fs => fs.1.node_id = P.id)).isSome then
           (found2, visited2)
         else
           find_node_go P
             (trim_back P.bucket_size
               (append_candidates P.id ((d, c, strat) :: rest) new_fingers))
             found2 visited2 (i + 1)) := by
  rw [find_node_go]
  simp only [if_neg hi, hv, Bool.false_eq_true, if_false, henv]

theorem find_node_go_trace_le (P : FindNodeParams) :
    ∀ (fuel : Nat) (candidates found : List Candidate)
      (visited : List (Nat × ContactOption)) (i : Nat),
      P.visit_limit - i ≤ fuel →
      (find_node_go P candidates found visited i).2.length
        ≤ visited.length + (P.visit_limit - i) := by
  intro fuel
  induction fuel with
  | zero =>
    intro candidates found visited i hf
    cases candidates with
    | nil =>
      rw [find_node_go_nil]
      dsimp only
      omega
    | cons head rest =>
      obtain ⟨d, c, strat⟩ := head
      rw [find_node_go_limit _ _ _ _ _ _ _ _ (by omega)]
      dsimp only
      omega
  | succ n ih =>
    intro candidates
    induction candidates with
    | nil =>
      intro found visited i hf
      rw [find_node_go_nil]
      dsimp only
      omega
    | cons head rest ihc =>
      obtain ⟨d, c, strat⟩ := head
      intro found visited i hf
      by_cases hi : P.visit_limit ≤ i
      · rw [find_node_go_limit _ _ _ _ _ _ _ _ hi]
        dsimp only
        omega
      by_cases hv : (visited.find? (fun v => v.1 = c.node_id)).isSome
      · rw [find_node_go_visited_hit _ _ _ _ _ _ _ _ hi hv]
        exact ihc found visited i hf
      rcases henv : P.env c strat with _ | _ | resp
      · rw [find_node_go_dial_fail _ _ _ _ _ _ _ _ hi (bool_not_true hv) (Or.inl henv)]
        have h2 := ih ((d, c, strat) :: rest) found
          (visited ++ [(c.node_id, strat.contact)]) (i + 1) (by omega)
        simp only [List.length_append, List.length_cons, List.length_nil] at h2 ⊢
        omega
      · rw [find_node_go_dial_fail _ _ _ _ _ _ _ _ hi (bool_not_true hv) (Or.inr henv)]
        have h2 := ih ((d, c, strat) :: rest) found
          (visited ++ [(c.node_id, strat.contact)]) (i + 1) (by omega)
        simp only [List.length_append, List.length_cons, List.length_nil] at h2 ⊢
        omega
      · rw [find_node_go_response _ _ _ _ _ _ _ _ resp hi (bool_not_true hv) henv]
        dsimp only
        split_ifs with ht
        · simp only [Prod.snd, List.length_append, List.length_cons, List.length_nil]
          omega
        · have h2 := ih
            (trim_back P.bucket_size (append_candidates P.id ((d, c, strat) :: rest)
              (retain_new_fingers P d (extract_fingers_from_response P.sockets resp
                (visited ++ [(c.node_id, strat.contact)])))))
            (trim_back P.result_limit (append_candidates P.id found
              (retain_new_fingers P d (extract_fingers_from_response P.sockets resp
                (visited ++ [(c.node_id, strat.contact)])))))
            (visited ++ [(c.node_id, strat.contact)]) (i + 1) (by omega)
          simp only [List.length_append, List.length_cons, List.length_nil] at h2 ⊢
          omega

theorem find_node_go_found_le (P : FindNodeParams) :
    ∀ (fuel : Nat) (candidates found : List Candidate)
      (visited : List (Nat × ContactOption)) (i : Nat),
      P.visit_limit - i ≤ fuel →
      found.length ≤ P.result_limit →
      (find_node_go P candidates found visited i).1.length ≤ P.result_limit := by
  intro fuel
  induction fuel with
  | zero =>
    intro candidates found visited i hf hfound
    cases candidates with
    | nil =>
      rw [find_node_go_nil]
      exact hfound
    | cons head rest =>
      obtain ⟨d, c, strat⟩ := head
      rw [find_node_go_limit _ _ _ _ _ _ _ _ (by omega)]
      exact hfound
  | succ n ih =>
    intro candidates
    induction candidates with
    | nil =>
      intro found visited i hf hfound
      rw [find_node_go_nil]
      exact hfound
    | cons head rest ihc =>
      obtain ⟨d, c, strat⟩ := head
      intro found visited i hf hfound
      by_cases hi : P.visit_limit ≤ i
      · rw [find_node_go_limit _ _ _ _ _ _ _ _ hi]
        exact hfound
      by_cases hv : (visited.find? (fun v => v.1 = c.node_id)).isSome
      · rw [find_node_go_visited_hit _ _ _ _ _ _ _ _ hi hv]
        exact ihc found visited i hf hfound
      rcases henv : P.env c strat with _ | _ | resp
      · rw [find_node_go_dial_fail _ _ _ _ _ _ _ _ hi (bool_not_true hv) (Or.inl henv)]
        exact ih ((d, c, strat) :: rest) found
          (visited ++ [(c.node_id, strat.contact)]) (i + 1) (by omega) hfound
      · rw [find_node_go_dial_fail _ _ _ _ _ _ _ _ hi (bool_not_true hv) (Or.inr henv)]
        exact ih ((d, c, strat) :: rest) found
          (visited ++ [(c.node_id, strat.contact)]) (i + 1) (by omega) hfound
      · rw [find_node_go_response _ _ _ _ _ _ _ _ resp hi (bool_not_true hv) henv]
        dsimp only
        split_ifs with ht
        · simp [trim_back]
        · exact ih _ _ (visited ++ [(c.node_id, strat.contact)]) (i + 1) (by omega)
            (by simp [trim_back])

/-- C5 amended: find_node_from_fingers terminates (witnessed by the
well-founded definition of find_node_go), dials at most visit_limit
candidates (the dial trace is bounded), returns at most result_limit nodes,
and stops early as soon as a response reports a finger with the exact
target id among the merged fingers — those surviving the retain filter (not
the local node, Direct strategy, strictly closer than the current
candidate): in that case the returned trace ends at the current dial and no
further candidate is dialed. -/
theorem c5_find_node_bounds_and_early_stop :
    (∀ (P : FindNodeParams) (own_contact_info : ContactInfo)
        (fingers : List NodeContactInfo),
      (find_node_from_fingers P own_contact_info fingers).2.length ≤ P.visit_limit
      ∧ (find_node_from_fingers P own_contact_info fingers).1.length ≤ P.result_limit)
    ∧ (∀ (P : FindNodeParams) (d : Nat) (c : NodeContactInfo)
        (strat : ContactStrategy) (rest found : List Candidate)
        (visited : List (Nat × ContactOption)) (i : Nat) (resp : FindNodeResponse),
      ¬ P.visit_limit ≤ i →
      (visited.find? (fun v => v.1 = c.node_id)).isSome = false →
      P.env c strat = DialOutcome.response resp →
      ((retain_new_fingers P d (extract_fingers_from_response P.sockets resp
          (visited ++ [(c.node_id, strat.contact)]))).find?
            (fun fs => fs.1.node_id = P.id)).isSome = true →
      find_node_go P ((d, c, strat) :: rest) found visited i
        = (trim_back P.result_limit (append_candidates P.id found
            (retain_new_fingers P d (extract_fingers_from_response P.sockets resp
              (visited ++ [(c.node_id, strat.contact)])))),
           visited ++ [(c.node_id, strat.contact)])) := by
  constructor
  · intro P own fingers
    constructor
    · unfold find_node_from_fingers
      refine le_trans (find_node_go_trace_le P P.visit_limit _ _ [] 0 (by omega)) ?_
      simp
    · unfold find_node_from_fingers
      exact find_node_go_found_le P P.visit_limit _ _ [] 0 (by omega) (by simp [trim_back])
  · intro P d c strat rest found visited i resp hi hv henv ht
    rw [find_node_go_response P d c strat rest found visited i resp hi hv henv]
    dsimp only
    rw [if_pos ht]

/-- A contact info advertising one IPv4 UDP transport. -/
def v4_contact (ip port : Nat) (o : Openness) : ContactInfo :=
  { ipv4 := some
      { addr := ip,
        availability :=
          { udp := some { port := port, openness := o }, tcp := none } },
    ipv6 := none }

/-- First candidate of the C5 scenario (distance 8 to the target id 9). -/
def c5_A : NodeContactInfo :=
  { node_id := 1, contact_info := v4_contact 10 10 Openness.bidirectional }

/-- Second candidate of the C5 scenario (distance 11 to the target id 9). -/
def c5_B : NodeContactInfo :=
  { node_id := 2, contact_info := v4_contact 11 11 Openness.bidirectional }

/-- The target node as reported by the first candidate: it has the exact
target id 9 but advertises Punchable, so its strategy is HolePunch and the
retain filter drops it. -/
def c5_T : NodeContactInfo :=
  { node_id := 9, contact_info := v4_contact 12 12 Openness.punchable }

/-- Response of the first candidate: reports the exact target. -/
def c5_respA : FindNodeResponse :=
  { is_super_node := false, connection := none, fingers := [c5_T] }

/-- Response of the second candidate: nothing new. -/
def c5_respB : FindNodeResponse :=
  { is_super_node := false, connection := none, fingers := [] }

/-- Network oracle of the C5 scenario. -/
def c5_env : NodeContactInfo → ContactStrategy → DialOutcome :=
  fun c _ =>
    if c.node_id = 1 then DialOutcome.response c5_respA
    else DialOutcome.response c5_respB

/-- Parameters of the C5 counterexample run. -/
def c5_params : FindNodeParams :=
  { sockets := c10_sockets, self_id := 100, id := 9, result_limit := 3,
    visit_limit := 10, bucket_size := 20, env := c5_env }

/-- Own contact info for the C5 scenario. -/
def c5_own : ContactInfo := v4_contact 0 1 Openness.bidirectional

/-- Strategy picked for the first candidate. -/
def c5_stratA : ContactStrategy :=
  { contact := { target := SocketAddr.v4 10 10, use_tcp := false },
    method := ContactStrategyMethod.direct }

/-- Strategy picked for the second candidate. -/
def c5_stratB : ContactStrategy :=
  { contact := { target := SocketAddr.v4 11 11, use_tcp := false },
    method := ContactStrategyMethod.direct }

/-- C5 counterexample: the first dialed candidate's response reports a
finger with the exact target id 9, yet the run does not stop there — the
reported target is Punchable, fails the Direct-only retain filter, and the
loop goes on to dial the second candidate, so the dial trace has length 2.
The claim as stated would require the trace to end after the first dial. -/
theorem c5_counterexample :
    (find_node_from_fingers c5_params c5_own [c5_A, c5_B]).2
      = [(1, c5_stratA.contact), (2, c5_stratB.contact)]
    ∧ c5_params.env c5_A c5_stratA = DialOutcome.response c5_respA
    ∧ (c5_respA.fingers.find? (fun f => f.node_id = c5_params.id)).isSome = true
    ∧ (find_node_from_fingers c5_params c5_own [c5_A, c5_B]).2.length ≠ 1 := by
  have h0 : find_node_from_fingers c5_params c5_own [c5_A, c5_B]
      = find_node_go c5_params [(8, c5_A, c5_stratA), (11, c5_B, c5_stratB)]
          [(8, c5_A, c5_stratA), (11, c5_B, c5_stratB)] [] 0 := by
    unfold find_node_from_fingers
    rfl
  have h1 : find_node_go c5_params [(8, c5_A, c5_stratA), (11, c5_B, c5_stratB)]
        [(8, c5_A, c5_stratA), (11, c5_B, c5_stratB)] [] 0
      = find_node_go c5_params [(8, c5_A, c5_stratA), (11, c5_B, c5_stratB)]
          [(8, c5_A, c5_stratA), (11, c5_B, c5_stratB)] [(1, c5_stratA.contact)] 1 := by
    rw [find_node_go_response c5_params 8 c5_A c5_stratA [(11, c5_B, c5_stratB)]
        [(8, c5_A, c5_stratA), (11, c5_B, c5_stratB)] [] 0 c5_respA
        (by decide) (by decide) (by decide)]
    dsimp only
    rw [if_neg (by decide)]
    rfl
  have h2 : find_node_go c5_params [(8, c5_A, c5_stratA), (11, c5_B, c5_stratB)]
        [(8, c5_A, c5_stratA), (11, c5_B, c5_stratB)] [(1, c5_stratA.contact)] 1
      = find_node_go c5_params [(11, c5_B, c5_stratB)]
          [(8, c5_A, c5_stratA), (11, c5_B, c5_stratB)] [(1, c5_stratA.contact)] 1 := by
    exact find_node_go_visited_hit c5_params 8 c5_A c5_stratA _ _ _ 1
      (by decide) (by decide)
  have h3 : find_node_go c5_params [(11, c5_B, c5_stratB)]
        [(8, c5_A, c5_stratA), (11, c5_B, c5_stratB)] [(1, c5_stratA.contact)] 1
      = find_node_go c5_params [(11, c5_B, c5_stratB)]
          [(8, c5_A, c5_stratA), (11, c5_B, c5_stratB)]
          [(1, c5_stratA.contact), (2, c5_stratB.contact)] 2 := by
    rw [find_node_go_response c5_params 11 c5_B c5_stratB []
        [(8, c5_A, c5_stratA), (11, c5_B, c5_stratB)] [(1, c5_stratA.contact)] 1 c5_respB
        (by decide) (by decide) (by decide)]
    dsimp only
    rw [if_neg (by decide)]
    rfl
  have h4 : find_node_go c5_params [(11, c5_B, c5_stratB)]
        [(8, c5_A, c5_stratA), (11, c5_B, c5_stratB)]
        [(1, c5_stratA.contact), (2, c5_stratB.contact)] 2
      = find_node_go c5_params []
          [(8, c5_A, c5_stratA), (11, c5_B, c5_stratB)]
          [(1, c5_stratA.contact), (2, c5_stratB.contact)] 2 := by
    exact find_node_go_visited_hit c5_params 11 c5_B c5_stratB _ _ _ 2
      (by decide) (by decide)
  have hrun : (find_node_from_fingers c5_params c5_own [c5_A, c5_B]).2
      = [(1, c5_stratA.contact), (2, c5_stratB.contact)] := by
    rw [h0, h1, h2, h3, h4, find_node_go_nil]
  refine ⟨hrun, by decide, by decide, ?_⟩
  rw [hrun]
  decide

/-- C5 witness for the amended theorem: when the reported target is
reachable Directly (Bidirectional) it survives the filter and the run stops
at that dial. -/
def c5_T2 : NodeContactInfo :=
  { node_id := 9, contact_info := v4_contact 12 12 Openness.bidirectional }

/-- Response reporting the target with a Direct strategy. -/
def c5_respT2 : FindNodeResponse :=
  { is_super_node := false, connection := none, fingers := [c5_T2] }

/-- Oracle for the C5 witness scenario. -/
def c5b_env : NodeContactInfo → ContactStrategy → DialOutcome :=
  fun _ _ => DialOutcome.response c5_respT2

/-- Parameters for the C5 witness scenario. -/
def c5b_params : FindNodeParams :=
  { sockets := c10_sockets, self_id := 100, id := 9, result_limit := 3,
    visit_limit := 10, bucket_size := 20, env := c5b_env }

/-- C5 witness: the amended theorem applied to the concrete run in which
the first response reports the target with a Direct strategy; the trace
ends at that single dial. -/
theorem c5_witness :
    find_node_go c5b_params [(8, c5_A, c5_stratA)] [] [] 0
      = (trim_back c5b_params.result_limit (append_candidates c5b_params.id []
          (retain_new_fingers c5b_params 8 (extract_fingers_from_response
            c5b_params.sockets c5_respT2 ([] ++ [(c5_A.node_id, c5_stratA.contact)])))),
         [] ++ [(c5_A.node_id, c5_stratA.contact)]) :=
  c5_find_node_bounds_and_early_stop.2 c5b_params 8 c5_A c5_stratA [] [] [] 0
    c5_respT2 (by decide) (by decide) (by decide) (by decide)

theorem find_value_next_nil (P : FindValueParams)
    (visited : List (Nat × ContactOption)) :
    find_value_next P [] visited = none := by
  rw [find_value_next]

theorem find_value_next_limit (P : FindValueParams) (d : Nat)
    (c : NodeContactInfo) (strat : ContactStrategy) (rest : List Candidate)
    (visited : List (Nat × ContactOption))
    (h : P.visit_limit ≤ visited.length) :
    find_value_next P ((d, c, strat) :: rest) visited = none := by
  rw [find_value_next]
  simp only [if_pos h]

theorem find_value_next_self (P : FindValueParams) (d : Nat)
    (c : NodeContactInfo) (strat : ContactStrategy) (rest : List Candidate)
    (visited : List (Nat × ContactOption))
    (hlim : ¬ P.visit_limit ≤ visited.length)
    (hself : c.node_id = P.self_id) :
    find_value_next P ((d, c, strat) :: rest) visited
      = find_value_next P rest visited := by
  rw [find_value_next]
  simp only [if_neg hlim, if_pos hself]

theorem find_value_next_optvisited (P : FindValueParams) (d : Nat)
    (c : NodeContactInfo) (strat : ContactStrategy) (rest : List Candidate)
    (visited : List (Nat × ContactOption))
    (hlim : ¬ P.visit_limit ≤ visited.length)
    (hself : ¬ c.node_id = P.self_id)
    (hv : (visited.find? (fun v => v.2 = strat.contact)).isSome = true) :
    find_value_next P ((d, c, strat) :: rest) visited
      = find_value_next P rest visited := by
  rw [find_value_next]
  simp only [if_neg hlim, if_neg hself, hv, if_true]

theorem find_value_next_relay_skip (P : FindValueParams) (d : Nat)
    (c : NodeContactInfo) (strat : ContactStrategy) (rest : List Candidate)
    (visited : List (Nat × ContactOption))
    (hlim : ¬ P.visit_limit ≤ visited.length)
    (hself : ¬ c.node_id = P.self_id)
    (hv : (visited.find? (fun v => v.2 = strat.contact)).isSome = false)
    (hrelay : strat.method = ContactStrategyMethod.relay ∧ P.use_relays = false) :
    find_value_next P ((d, c, strat) :: rest) visited
      = find_value_next P rest (visited ++ [(c.node_id, strat.contact)]) := by
  rw [find_value_next]
  simp only [if_neg hlim, if_neg hself, hv, Bool.false_eq_true, if_false,
    if_pos hrelay]

theorem find_value_next_dial_fail (P : FindValueParams) (d : Nat)
    (c : NodeContactInfo) (strat : ContactStrategy) (rest : List Candidate)
    (visited : List (Nat × ContactOption))
    (hlim : ¬ P.visit_limit ≤ visited.length)
    (hself : ¬ c.node_id = P.self_id)
    (hv : (visited.find? (fun v => v.2 = strat.contact)).isSome = false)
    (hrelay : ¬ (strat.method = ContactStrategyMethod.relay ∧ P.use_relays = false))
    (henv : P.env c strat = FvDialOutcome.connectFail ∨
            P.env c strat = FvDialOutcome.exchangeFail) :
    find_value_next P ((d, c, strat) :: rest) visited
      = find_value_next P rest (visited ++ [(c.node_id, strat.contact)]) := by
  rw [find_value_next]
  rcases henv with h | h <;>
    simp only [if_neg hlim, if_neg hself, hv, Bool.false_eq_true, if_false,
      if_neg hrelay, h]

/-- Value-handling tail of one FindValueIter::next iteration: check the
received value against the verifier, return its result on acceptance, and
continue the loop on the merged queue otherwise. -/
def fv_handle_value (P : FindValueParams) (c : NodeContactInfo)
    (candidates2 : List Candidate) (visited2 : List (Nat × ContactOption)) :
    Option (List Nat) → Option Nat
  | some v =>
    match P.do_verify c v with
    | some result => some result
    | none => find_value_next P candidates2 visited2
  | none => find_value_next P candidates2 visited2

theorem find_value_next_response (P : FindValueParams) (d : Nat)
    (c : NodeContactInfo) (strat : ContactStrategy) (rest : List Candidate)
    (visited : List (Nat × ContactOption))
    (value : Option (List Nat)) (contacts : Option FindNodeResponse)
    (hlim : ¬ P.visit_limit ≤ visited.length)
    (hself : ¬ c.node_id = P.self_id)
    (hv : (visited.find? (fun v => v.2 = strat.contact)).isSome = false)
    (hrelay : ¬ (strat.method = ContactStrategyMethod.relay ∧ P.use_relays = false))
    (henv : P.env c strat = FvDialOutcome.response value contacts) :
    find_value_next P ((d, c, strat) :: rest) visited
      = fv_handle_value P c
          (fv_merge_candidates P d rest
            (visited ++ [(c.node_id, strat.contact)]) contacts)
          (visited ++ [(c.node_id, strat.contact)]) value := by
  rw [find_value_next]
  simp only [if_neg hlim, if_neg hself, hv, Bool.false_eq_true, if_false,
    if_neg hrelay, henv]
  cases value <;> rfl

theorem find_value_next_sound (P : FindValueParams) :
    ∀ (fuel : Nat) (candidates : List Candidate)
      (visited : List (Nat × ContactOption)) (r : Nat),
      P.visit_limit - visited.length ≤ fuel →
      find_value_next P candidates visited = some r →
      ∃ c strat v contacts,
        P.env c strat = FvDialOutcome.response (some v) contacts
        ∧ P.do_verify c v = some r := by
  intro fuel
  induction fuel with
  | zero =>
    intro candidates visited r hf h
    cases candidates with
    | nil =>
      rw [find_value_next_nil] at h
      exact absurd h (by simp)
    | cons head rest =>
      obtain ⟨d, c, strat⟩ := head
      rw [find_value_next_limit _ _ _ _ _ _ (by omega)] at h
      exact absurd h (by simp)
  | succ n ih =>
    intro candidates
    induction candidates with
    | nil =>
      intro visited r hf h
      rw [find_value_next_nil] at h
      exact absurd h (by simp)
    | cons head rest ihc =>
      obtain ⟨d, c, strat⟩ := head
      intro visited r hf h
      by_cases hlim : P.visit_limit ≤ visited.length
      · rw [find_value_next_limit _ _ _ _ _ _ hlim] at h
        exact absurd h (by simp)
      by_cases hself : c.node_id = P.self_id
      · rw [find_value_next_self _ _ _ _ _ _ hlim hself] at h
        exact ihc visited r hf h
      by_cases hvopt : (visited.find? (fun v => v.2 = strat.contact)).isSome
      · rw [find_value_next_optvisited _ _ _ _ _ _ hlim hself hvopt] at h
        exact ihc visited r hf h
      by_cases hrelay : strat.method = ContactStrategyMethod.relay ∧ P.use_relays = false
      · rw [find_value_next_relay_skip _ _ _ _ _ _ hlim hself
          (bool_not_true hvopt) hrelay] at h
        exact ih rest (visited ++ [(c.node_id, strat.contact)]) r
          (by simp only [List.length_append, List.length_cons, List.length_nil]; omega) h
      rcases henv : P.env c strat with _ | _ | ⟨value, contacts⟩
      · rw [find_value_next_dial_fail _ _ _ _ _ _ hlim hself
          (bool_not_true hvopt) hrelay (Or.inl henv)] at h
        exact ih rest (visited ++ [(c.node_id, strat.contact)]) r
          (by simp only [List.length_append, List.length_cons, List.length_nil]; omega) h
      · rw [find_value_next_dial_fail _ _ _ _ _ _ hlim hself
          (bool_not_true hvopt) hrelay (Or.inr henv)] at h
        exact ih rest (visited ++ [(c.node_id, strat.contact)]) r
          (by simp only [List.length_append, List.length_cons, List.length_nil]; omega) h
      · rw [find_value_next_response _ _ _ _ _ _ value contacts hlim hself
          (bool_not_true hvopt) hrelay henv] at h
        cases value with
        | none =>
          rw [fv_handle_value] at h
          exact ih _ (visited ++ [(c.node_id, strat.contact)]) r
            (by simp only [List.length_append, List.length_cons, List.length_nil]; omega) h
        | some v =>
          rw [fv_handle_value] at h
          rcases hver : P.do_verify c v with _ | res
          · rw [hver] at h
            dsimp only at h
            exact ih _ (visited ++ [(c.node_id, strat.contact)]) r
              (by simp only [List.length_append, List.length_cons, List.length_nil]; omega) h
          · rw [hver] at h
            dsimp only at h
            obtain rfl : res = r := by simpa using h
            exact ⟨c, strat, v, contacts, henv, hver⟩

/-- C4: in FindValueIter::next a received value is returned exactly when
the caller-supplied verifier accepts it. Soundness: any returned result is
the verifier's Some-result on a value received from some dialed candidate.
Acceptance: when the current eligible candidate's exchange yields a value
the verifier accepts, next returns exactly the verifier's result.
Rejection: when the verifier returns none the value is discarded and the
iteration continues on the merged candidate queue. -/
theorem c4_find_value_verifier_gate :
    (∀ (P : FindValueParams) (candidates : List Candidate)
        (visited : List (Nat × ContactOption)) (r : Nat),
      find_value_next P candidates visited = some r →
      ∃ c strat v contacts,
        P.env c strat = FvDialOutcome.response (some v) contacts
        ∧ P.do_verify c v = some r)
    ∧ (∀ (P : FindValueParams) (d : Nat) (c : NodeContactInfo)
        (strat : ContactStrategy) (rest : List Candidate)
        (visited : List (Nat × ContactOption)) (v : List Nat)
        (contacts : Option FindNodeResponse) (r : Nat),
      ¬ P.visit_limit ≤ visited.length →
      ¬ c.node_id = P.self_id →
      (visited.find? (fun vi => vi.2 = strat.contact)).isSome = false →
      ¬ (strat.method = ContactStrategyMethod.relay ∧ P.use_relays = false) →
      P.env c strat = FvDialOutcome.response (some v) contacts →
      P.do_verify c v = some r →
      find_value_next P ((d, c, strat) :: rest) visited = some r)
    ∧ (∀ (P : FindValueParams) (d : Nat) (c : NodeContactInfo)
        (strat : ContactStrategy) (rest : List Candidate)
        (visited : List (Nat × ContactOption)) (v : List Nat)
        (contacts : Option FindNodeResponse),
      ¬ P.visit_limit ≤ visited.length →
      ¬ c.node_id = P.self_id →
      (visited.find? (fun vi => vi.2 = strat.contact)).isSome = false →
      ¬ (strat.method = ContactStrategyMethod.relay ∧ P.use_relays = false) →
      P.env c strat = FvDialOutcome.response (some v) contacts →
      P.do_verify c v = none →
      find_value_next P ((d, c, strat) :: rest) visited
        = find_value_next P
            (fv_merge_candidates P d rest
              (visited ++ [(c.node_id, strat.contact)]) contacts)
            (visited ++ [(c.node_id, strat.contact)])) := by
  refine ⟨?_, ?_, ?_⟩
  · intro P candidates visited r h
    exact find_value_next_sound P (P.visit_limit - visited.length) candidates
      visited r (le_refl _) h
  · intro P d c strat rest visited v contacts r hlim hself hv hrelay henv hver
    rw [find_value_next_response _ _ _ _ _ _ (some v) contacts hlim hself hv hrelay henv,
      fv_handle_value, hver]
  · intro P d c strat rest visited v contacts hlim hself hv hrelay henv hver
    rw [find_value_next_response _ _ _ _ _ _ (some v) contacts hlim hself hv hrelay henv,
      fv_handle_value, hver]

/-- Verifier of the C4 witness scenario: accepts exactly the value bytes
[4, 2] with result 42. -/
def c4_verify : NodeContactInfo → List Nat → Option Nat :=
  fun _ v => if v = [4, 2] then some 42 else none

/-- Oracle of the C4 witness scenario: every dial yields the value
[4, 2] and no fingers. -/
def c4_env : NodeContactInfo → ContactStrategy → FvDialOutcome :=
  fun _ _ => FvDialOutcome.response (some [4, 2]) none

/-- Parameters of the C4 witness run. -/
def c4_params : FindValueParams :=
  { sockets := c10_sockets, self_id := 100, id := 9, visit_limit := 10,
    bucket_size := 20, narrow_down := true, use_relays := false,
    env := c4_env, do_verify := c4_verify }

/-- C4 witness: the acceptance part of the theorem applied to a concrete
single-candidate run whose received value the verifier accepts with
result 42. -/
theorem c4_witness :
    find_value_next c4_params [(8, c5_A, c5_stratA)] [] = some 42 :=
  c4_find_value_verifier_gate.2.1 c4_params 8 c5_A c5_stratA [] [] [4, 2] none 42
    (by decide) (by decide) (by decide) (by decide) (by decide) (by decide)

end StoneNet
